import Mathlib

/-!
Verification development for the `solana_dex_parser` Rust repository.

Bytes are modelled as `Nat` (values below 256), byte buffers as `List Nat`,
Rust `String`s as Lean `String`s (their UTF-8 byte sequences where byte-level
access matters), `u64`/`u128` arithmetic as `Nat` with explicit `% 2 ^ 64`
where overflow matters, `i64`/`i128` as `Int`, and Rust `f64` ui-amounts as
exact rationals `ℚ` (their values are never compared by any theorem here, so
floating-point rounding is immaterial).  Fallible Rust functions returning
`Result` are modelled with `Except`.
-/

/-- Error type of the pumpfun protocol module.  `bufferOverrun` carries the
requested length, the current offset and the buffer length, exactly as the
`anyhow!` message in `BinaryReader::check_bounds`; `utf8` models the
`failed to read string` error of `read_string`. -/
inductive DexErr where
  | bufferOverrun (requested : Nat) (offset : Nat) (bufferLen : Nat)
  | utf8
deriving DecidableEq, Repr

/-- Little-endian value of a byte list (first byte is least significant),
as in `byteorder::LittleEndian` reads. -/
def leNat (bs : List Nat) : Nat :=
  bs.foldr (fun b acc => b + 256 * acc) 0

/-- Little-endian byte encoding of a number, fixed width `w` (for building
concrete test buffers). -/
def leBytes (w : Nat) (n : Nat) : List Nat :=
  match w with
  | 0 => []
  | Nat.succ w2 => n % 256 :: leBytes w2 (n / 256)

/-- The bitcoin base58 alphabet used by the `bs58` crate. -/
def b58Alphabet : List Char :=
  "123456789ABCDEFGHJKLMNPQRSTUVWXYZabcdefghijkmnopqrstuvwxyz".data

/-- Value of one base58 digit character, `none` when the character is not in
the alphabet. -/
def b58Val (c : Char) : Option Nat :=
  b58Alphabet.findIdx? (fun a => a = c)

/-- Accumulate the big-endian base58 value of a character list; `none` on the
first character outside the alphabet (mirrors `bs58::decode`). -/
def b58Acc : List Char → Nat → Option Nat
  | [], acc => some acc
  | c :: cs, acc =>
    match b58Val c with
    | none => none
    | some v => b58Acc cs (acc * 58 + v)

/-- Big-endian bytes of a number, with an explicit fuel bound (the fuel is
always chosen at least as large as the number of produced bytes, so the
`0` fuel case is unreachable on the inputs used). -/
def natBytesBE : Nat → Nat → List Nat
  | 0, _ => []
  | Nat.succ fuel, n => if n = 0 then [] else natBytesBE fuel (n / 256) ++ [n % 256]

/-- Base58 digits of a number, least significant first, fuel-bounded. -/
def natB58Digits : Nat → Nat → List Nat
  | 0, _ => []
  | Nat.succ fuel, n => if n = 0 then [] else n % 58 :: natB58Digits fuel (n / 58)

/-- Decoding of a base58 string to bytes, mirroring `bs58::decode(..).into_vec()`:
every character must be in the bitcoin alphabet, leading `1` characters become
leading zero bytes, the rest is the big-endian value. -/
def b58Decode (s : String) : Option (List Nat) :=
  let cs := s.data
  match b58Acc cs 0 with
  | none => none
  | some n =>
    let zeros := (cs.takeWhile (fun c => c = '1')).length
    some (List.replicate zeros 0 ++ natBytesBE cs.length n)

/-- Encoding of bytes to base58, mirroring `bs58::encode(..).into_string()`:
leading zero bytes become `1` characters, the rest is the big-endian value in
base58 digits. -/
def b58Encode (bs : List Nat) : String :=
  let zeros := (bs.takeWhile (fun b => b = 0)).length
  let n := bs.foldl (fun acc b => acc * 256 + b) 0
  let digits := (natB58Digits (2 * bs.length) n).reverse
  String.mk (List.replicate zeros '1' ++ digits.map (fun d => b58Alphabet.getD d '1'))

/-- The standard base64 alphabet. -/
def b64Alphabet : List Char :=
  "ABCDEFGHIJKLMNOPQRSTUVWXYZabcdefghijklmnopqrstuvwxyz0123456789+/".data

/-- Value of one base64 digit character. -/
def b64Val (c : Char) : Option Nat :=
  b64Alphabet.findIdx? (fun a => a = c)

/-- Block-wise base64 decoding with canonical padding, mirroring the
`base64::engine::general_purpose::STANDARD` engine: the length must be a
multiple of four, `=` may appear only at the very end (once or twice), and
trailing bits beyond the decoded bytes must be zero. -/
def b64Blocks : List Char → Option (List Nat)
  | [] => some []
  | a :: b :: c :: d :: rest =>
    match b64Val a, b64Val b with
    | some va, some vb =>
      if d = '=' then
        if rest.isEmpty then
          if c = '=' then
            if vb % 16 = 0 then some [va * 4 + vb / 16] else none
          else
            match b64Val c with
            | some vc =>
              if vc % 4 = 0 then some [va * 4 + vb / 16, vb % 16 * 16 + vc / 4] else none
            | none => none
        else none
      else
        match b64Val c, b64Val d with
        | some vc, some vd =>
          match b64Blocks rest with
          | some tail =>
            some ((va * 4 + vb / 16) :: (vb % 16 * 16 + vc / 4) :: (vc % 4 * 64 + vd) :: tail)
          | none => none
        | _, _ => none
    | _, _ => none
  | _ => none

/-- Decoding of a base64 string to bytes. -/
def b64Decode (s : String) : Option (List Nat) :=
  b64Blocks s.data

/-- Base64 encoding of bytes (standard alphabet, with padding), used to build
concrete instruction-data strings for test inputs. -/
def b64Encode : List Nat → String
  | [] => ""
  | [x] =>
    String.mk
      [b64Alphabet.getD (x / 4) 'A', b64Alphabet.getD (x % 4 * 16) 'A', '=', '=']
  | [x, y] =>
    String.mk
      [b64Alphabet.getD (x / 4) 'A', b64Alphabet.getD (x % 4 * 16 + y / 16) 'A',
        b64Alphabet.getD (y % 16 * 4) 'A', '=']
  | x :: y :: z :: rest =>
    String.mk
      [b64Alphabet.getD (x / 4) 'A', b64Alphabet.getD (x % 4 * 16 + y / 16) 'A',
        b64Alphabet.getD (y % 16 * 4 + z / 64) 'A', b64Alphabet.getD (z % 64) 'A']
      ++ b64Encode rest

/-- Is `b` a UTF-8 continuation byte (`0x80..0xBF`)? -/
def isCont (b : Nat) : Bool := 0x80 ≤ b && b ≤ 0xBF

/-- Fuel-bounded UTF-8 validation of a byte list, following the checks of
Rust `String::from_utf8` (rejecting overlong encodings, surrogates and
values above U+10FFFF).  The fuel is the list length, which bounds the
number of steps. -/
def utf8ValidFuel : Nat → List Nat → Bool
  | _, [] => true
  | 0, _ => false
  | Nat.succ fuel, b :: rest =>
    if b ≤ 0x7F then utf8ValidFuel fuel rest
    else if 0xC2 ≤ b && b ≤ 0xDF then
      match rest with
      | c :: r2 => isCont c && utf8ValidFuel fuel r2
      | [] => false
    else if b == 0xE0 then
      match rest with
      | c :: d :: r2 => (0xA0 ≤ c && c ≤ 0xBF) && isCont d && utf8ValidFuel fuel r2
      | _ => false
    else if (0xE1 ≤ b && b ≤ 0xEC) || b == 0xEE || b == 0xEF then
      match rest with
      | c :: d :: r2 => isCont c && isCont d && utf8ValidFuel fuel r2
      | _ => false
    else if b == 0xED then
      match rest with
      | c :: d :: r2 => (0x80 ≤ c && c ≤ 0x9F) && isCont d && utf8ValidFuel fuel r2
      | _ => false
    else if b == 0xF0 then
      match rest with
      | c :: d :: e :: r2 =>
        (0x90 ≤ c && c ≤ 0xBF) && isCont d && isCont e && utf8ValidFuel fuel r2
      | _ => false
    else if 0xF1 ≤ b && b ≤ 0xF3 then
      match rest with
      | c :: d :: e :: r2 => isCont c && isCont d && isCont e && utf8ValidFuel fuel r2
      | _ => false
    else if b == 0xF4 then
      match rest with
      | c :: d :: e :: r2 =>
        (0x80 ≤ c && c ≤ 0x8F) && isCont d && isCont e && utf8ValidFuel fuel r2
      | _ => false
    else false

/-- UTF-8 validity of a byte list. -/
def utf8Valid (bs : List Nat) : Bool := utf8ValidFuel bs.length bs

/-- UTF-8 bytes of one character. -/
def utf8EncodeChar (c : Char) : List Nat :=
  let n := c.toNat
  if n ≤ 0x7F then [n]
  else if n ≤ 0x7FF then [0xC0 + n / 64, 0x80 + n % 64]
  else if n ≤ 0xFFFF then [0xE0 + n / 4096, 0x80 + n / 64 % 64, 0x80 + n % 64]
  else [0xF0 + n / 262144, 0x80 + n / 4096 % 64, 0x80 + n / 64 % 64, 0x80 + n % 64]

/-- UTF-8 bytes of a string, modelling Rust `str::as_bytes`. -/
def utf8Bytes (s : String) : List Nat :=
  s.data.flatMap utf8EncodeChar

/-! ## BinaryReader (src/protocols/pumpfun/binary_reader.rs)

The Rust reader mutates `self.offset` in place; each operation is modelled as
a function from a reader to a result paired with the updated reader, so that
the cursor position after a failed read is also captured. -/

/-- State of `BinaryReader`: the byte buffer and the current cursor. -/
structure BinaryReader where
  buffer : List Nat
  offset : Nat
deriving Repr

/-- Bytes remaining past the cursor (`BinaryReader::remaining`,
`saturating_sub`). -/
def BinaryReader.remaining (r : BinaryReader) : Nat :=
  r.buffer.length - r.offset

/-- Bounds check of `BinaryReader::check_bounds`. -/
def BinaryReader.check_bounds (r : BinaryReader) (length : Nat) : Except DexErr Unit :=
  if r.offset + length > r.buffer.length then
    .error (.bufferOverrun length r.offset r.buffer.length)
  else
    .ok ()

/-- `BinaryReader::read_fixed_array`. -/
def BinaryReader.read_fixed_array (r : BinaryReader) (length : Nat) :
    Except DexErr (List Nat) × BinaryReader :=
  match r.check_bounds length with
  | .error e => (.error e, r)
  | .ok _ =>
    (.ok ((r.buffer.drop r.offset).take length), { r with offset := r.offset + length })

/-- `BinaryReader::read_u8`. -/
def BinaryReader.read_u8 (r : BinaryReader) : Except DexErr Nat × BinaryReader :=
  match r.check_bounds 1 with
  | .error e => (.error e, r)
  | .ok _ => (.ok (r.buffer.getD r.offset 0), { r with offset := r.offset + 1 })

/-- `BinaryReader::read_u16` (little endian). -/
def BinaryReader.read_u16 (r : BinaryReader) : Except DexErr Nat × BinaryReader :=
  match r.check_bounds 2 with
  | .error e => (.error e, r)
  | .ok _ =>
    (.ok (leNat ((r.buffer.drop r.offset).take 2)), { r with offset := r.offset + 2 })

/-- `BinaryReader::read_u64` (little endian). -/
def BinaryReader.read_u64 (r : BinaryReader) : Except DexErr Nat × BinaryReader :=
  match r.check_bounds 8 with
  | .error e => (.error e, r)
  | .ok _ =>
    (.ok (leNat ((r.buffer.drop r.offset).take 8)), { r with offset := r.offset + 8 })

/-- `BinaryReader::read_i64` (little endian, two's complement). -/
def BinaryReader.read_i64 (r : BinaryReader) : Except DexErr Int × BinaryReader :=
  match r.check_bounds 8 with
  | .error e => (.error e, r)
  | .ok _ =>
    let n := leNat ((r.buffer.drop r.offset).take 8)
    (.ok (if n < 2 ^ 63 then (n : Int) else (n : Int) - 2 ^ 64),
      { r with offset := r.offset + 8 })

/-- `BinaryReader::read_string`: a u32 little-endian length prefix followed by
that many UTF-8 bytes.  The decoded Rust `String` is represented by its byte
list.  As in the source, the cursor is advanced past the prefix before the
second bounds check and past the bytes before UTF-8 validation. -/
def BinaryReader.read_string (r : BinaryReader) : Except DexErr (List Nat) × BinaryReader :=
  match r.check_bounds 4 with
  | .error e => (.error e, r)
  | .ok _ =>
    let length := leNat ((r.buffer.drop r.offset).take 4)
    let r1 : BinaryReader := { r with offset := r.offset + 4 }
    match r1.check_bounds length with
    | .error e => (.error e, r1)
    | .ok _ =>
      let bytes := (r1.buffer.drop r1.offset).take length
      let r2 : BinaryReader := { r1 with offset := r1.offset + length }
      if utf8Valid bytes then (.ok bytes, r2) else (.error .utf8, r2)

/-- `BinaryReader::read_pubkey`: 32 bytes rendered as base58. -/
def BinaryReader.read_pubkey (r : BinaryReader) : Except DexErr String × BinaryReader :=
  match r.read_fixed_array 32 with
  | (.error e, r2) => (.error e, r2)
  | (.ok bytes, r2) => (.ok (b58Encode bytes), r2)

/-! ## Instruction-data decoding (src/protocols/pumpfun/util.rs) -/

/-- `decode_instruction_data`: the empty string yields an empty buffer;
otherwise base58 is tried first, then base64, then the raw UTF-8 bytes of
the string.  The function never returns an error. -/
def decode_instruction_data (data : String) : Except DexErr (List Nat) :=
  if data = "" then .ok []
  else
    match b58Decode data with
    | some decoded => .ok decoded
    | none =>
      match b64Decode data with
      | some decoded => .ok decoded
      | none => .ok (utf8Bytes data)

/-! ## idx ordering (src/protocols/pumpfun/util.rs) -/

/-- One character list split on `-`, as Rust `str::split('-')`. -/
def splitDash : List Char → List Char × List (List Char)
  | [] => ([], [])
  | c :: cs =>
    let (cur, rest) := splitDash cs
    if c = '-' then ([], cur :: rest) else (c :: cur, rest)

/-- The fields of `value.split('-')` in order. -/
def dashParts (s : String) : List (List Char) :=
  let (cur, rest) := splitDash s.data
  cur :: rest

/-- Digit list to number, `none` unless non-empty and all decimal digits. -/
def digitsVal : List Char → Option Nat
  | [] => none
  | cs =>
    cs.foldl
      (fun acc c =>
        match acc with
        | none => none
        | some n => if c.isDigit then some (n * 10 + (c.toNat - 48)) else none)
      (some 0)

/-- Rust `str::parse::<u64>()`: an optional `+` sign, then at least one digit,
rejecting values not below `2 ^ 64`. -/
def parseU64 (cs : List Char) : Option Nat :=
  let body := match cs with
    | '+' :: rest => rest
    | other => other
  match digitsVal body with
  | some n => if n < 2 ^ 64 then some n else none
  | none => none

/-- `parse_idx`: first two `-`-separated fields parsed as u64, each
defaulting to 0 on failure. -/
def parse_idx (value : String) : Nat × Nat :=
  let parts := dashParts value
  let main := match parts.get? 0 with
    | some p => (parseU64 p).getD 0
    | none => 0
  let sub := match parts.get? 1 with
    | some p => (parseU64 p).getD 0
    | none => 0
  (main, sub)

/-- `compare_idx`: numeric comparison of the outer components, ties broken by
the inner components. -/
def compare_idx (a b : String) : Ordering :=
  (compare (parse_idx a).1 (parse_idx b).1).then (compare (parse_idx a).2 (parse_idx b).2)

/-- The comparator of `sort_by_idx` as a relation: `a` may precede `b`. -/
def idxLe {α : Type} (idx : α → String) (a b : α) : Prop :=
  compare_idx (idx a) (idx b) ≠ Ordering.gt

instance {α : Type} (idx : α → String) : DecidableRel (idxLe idx) := by
  intro a b
  unfold idxLe
  infer_instance

/-- `sort_by_idx`: a stable sort by `compare_idx` on the `idx` accessor
(Rust `sort_by` is a stable sort; a stable sort's output is uniquely
determined by the comparator, so insertion sort models it exactly). -/
def sort_by_idx {α : Type} (idx : α → String) (items : List α) : List α :=
  List.insertionSort (idxLe idx) items

/-- The numeric `(outer, inner)` order on idx strings used by the spec. -/
def idxNumLe (a b : String) : Prop :=
  (parse_idx a).1 < (parse_idx b).1 ∨
    ((parse_idx a).1 = (parse_idx b).1 ∧ (parse_idx a).2 ≤ (parse_idx b).2)

/-- `compare_idx` is never `gt` exactly when `(outer, inner)` compares
non-decreasing numerically. -/
theorem compare_idx_ne_gt (a b : String) :
    compare_idx a b ≠ Ordering.gt ↔ idxNumLe a b := by
  unfold compare_idx idxNumLe
  rcases Nat.lt_trichotomy (parse_idx a).1 (parse_idx b).1 with h | h | h
  · simp [Nat.compare_eq_lt.mpr h, Ordering.then, Nat.le_of_lt h, h]
  · rw [Nat.compare_eq_eq.mpr h]
    rcases Nat.lt_or_ge (parse_idx b).2 (parse_idx a).2 with h2 | h2
    · simp [Ordering.then, Nat.compare_eq_gt.mpr h2, h, Nat.lt_irrefl]
      omega
    · have : compare (parse_idx a).2 (parse_idx b).2 ≠ Ordering.gt := by
        simp [Nat.compare_eq_gt]
        omega
      simp [Ordering.then]
      constructor
      · intro _
        right
        exact ⟨h, h2⟩
      · intro _
        exact this
  · have hgt : compare (parse_idx a).1 (parse_idx b).1 = Ordering.gt :=
      Nat.compare_eq_gt.mpr h
    simp [hgt, Ordering.then]
    omega

/-- Totality of the `sort_by_idx` comparator. -/
theorem idxLe_total {α : Type} (idx : α → String) (a b : α) :
    idxLe idx a b ∨ idxLe idx b a := by
  unfold idxLe
  rw [compare_idx_ne_gt, compare_idx_ne_gt]
  unfold idxNumLe
  omega

/-- Transitivity of the `sort_by_idx` comparator. -/
theorem idxLe_trans {α : Type} (idx : α → String) (a b c : α) :
    idxLe idx a b → idxLe idx b c → idxLe idx a c := by
  unfold idxLe
  rw [compare_idx_ne_gt, compare_idx_ne_gt, compare_idx_ne_gt]
  unfold idxNumLe
  omega

/-- The output of `sort_by_idx` is pairwise non-decreasing under the numeric
`(outer, inner)` order on idx values. -/
theorem sort_by_idx_sorted {α : Type} (idx : α → String) (items : List α) :
    (sort_by_idx idx items).Pairwise (fun a b => idxNumLe (idx a) (idx b)) := by
  haveI : IsTotal α (idxLe idx) := ⟨idxLe_total idx⟩
  haveI : IsTrans α (idxLe idx) := ⟨idxLe_trans idx⟩
  have h := List.sorted_insertionSort (idxLe idx) items
  unfold sort_by_idx
  exact h.imp (fun hab => (compare_idx_ne_gt _ _).mp hab)

/-! ## Type model

The rich result types consumed by the pumpfun/pumpswap modules
(`TradeType`, `TokenInfo`, `FeeInfo`, `MemeEvent`, `TradeInfo`, `DexInfo`)
are declared in `src/types.rs` of the crate, which is not among the
available sources; their fields are reconstructed from the spec's data
model (section 3) and from every construction site in the available
sources, which pin all fields used here. -/

/-- Trade/event kind (`TradeType`). -/
inductive TradeType where
  | Buy
  | Sell
  | Swap
  | Create
  | Complete
  | Migrate
deriving DecidableEq, Repr

/-- The SOL mint constant (`SOL_MINT`, spec section 6). -/
def SOL_MINT : String := "So11111111111111111111111111111111111111112"

/-- Pumpfun program id (`core/constants.rs`). -/
def PUMP_FUN_PROGRAM_ID : String := "6EF8rrecthR5Dkzon8Nwu78hRvfCKubJ14M5uBEwF6P"

/-- Pumpswap program id (`core/constants.rs`). -/
def PUMP_SWAP_PROGRAM_ID : String := "pAMMBay6oceH9fJKBRHGP5D4bD4sWpmSwMn52FMfXEA"

/-- Pumpfun display name (`core/constants.rs`). -/
def PUMP_FUN_PROGRAM_NAME : String := "Pumpfun"

/-- Pumpswap display name (`core/constants.rs`). -/
def PUMP_SWAP_PROGRAM_NAME : String := "Pumpswap"

/-- Raw and ui representation of a token amount as found in token-balance
entries (`TokenAmount` of the rich type model: raw amount string, optional
ui amount, decimals).  Modelled from the spec: the declaring `types.rs` is
not among the sources; the ui amount is an exact rational. -/
structure TokenAmountR where
  amount : String
  ui_amount : Option ℚ
  decimals : Nat
deriving Repr

/-- Per-account token snapshot (`TokenInfo`).  Field list as set by
`build_token_info` in `src/protocols/pumpfun/util.rs`; payload types of the
balance fields are modelled from the spec. -/
structure TokenInfo where
  mint : String
  amount : ℚ
  amount_raw : String
  decimals : Nat
  authority : Option String
  destination : Option String
  destination_owner : Option String
  destination_balance : Option TokenAmountR
  destination_pre_balance : Option TokenAmountR
  source : Option String
  source_balance : Option TokenAmountR
  source_pre_balance : Option TokenAmountR
  destination_balance_change : Option ℚ
  source_balance_change : Option ℚ
  balance_change : Option ℚ
deriving Repr

/-- Fee description attached to trades (`FeeInfo`). -/
structure FeeInfo where
  mint : String
  amount : ℚ
  amount_raw : String
  decimals : Nat
  dex : Option String
  fee_type : Option String
  recipient : Option String
deriving Repr

/-- Dominant-DEX info (`DexInfo`). -/
structure DexInfo where
  program_id : Option String
  amm : Option String
  route : Option String
deriving Repr

/-- A Solana instruction as consumed by the pumpfun modules
(`SolanaInstruction`): program id, resolved account keys, still-encoded
data string. -/
structure SolanaInstruction where
  program_id : String
  accounts : List String
  data : String
deriving Repr

/-- An instruction tagged with its position in the outer/inner tree
(`ClassifiedInstruction`). -/
structure ClassifiedInstruction where
  program_id : String
  outer_index : Nat
  inner_index : Option Nat
  data : SolanaInstruction
deriving Repr

/-- Meme/launch event (`MemeEvent`).  Field list as constructed by
`PumpfunEventParser`; `name`/`symbol`/`uri` strings are represented by
their UTF-8 byte lists. -/
structure MemeEvent where
  event_type : TradeType
  timestamp : Nat
  idx : String
  slot : Nat
  signature : String
  user : String
  base_mint : String
  quote_mint : String
  input_token : Option TokenInfo
  output_token : Option TokenInfo
  name : Option (List Nat)
  symbol : Option (List Nat)
  uri : Option (List Nat)
  decimals : Option Nat
  total_supply : Option Nat
  fee : Option ℚ
  protocol_fee : Option ℚ
  platform_fee : Option ℚ
  share_fee : Option ℚ
  creator_fee : Option ℚ
  protocol : Option String
  platform_config : Option String
  creator : Option String
  bonding_curve : Option String
  pool : Option String
  pool_dex : Option String
  pool_a_reserve : Option ℚ
  pool_b_reserve : Option ℚ
  pool_fee_rate : Option ℚ
deriving Repr

/-- Trade record (`TradeInfo`).  Field list as constructed by
`get_pumpswap_trade_info`/`get_pumpfun_trade_info` in
`src/protocols/pumpfun/util.rs`. -/
structure TradeInfo where
  trade_type : TradeType
  pool : List String
  input_token : TokenInfo
  output_token : TokenInfo
  slippage_bps : Option Nat
  fee : Option FeeInfo
  fees : List FeeInfo
  user : Option String
  program_id : Option String
  amm : Option String
  amms : Option (List String)
  route : Option String
  slot : Nat
  timestamp : Nat
  signature : String
  idx : String
  signer : Option (List String)
deriving Repr

/-- `convert_to_ui_amount` of `src/protocols/pumpfun/util.rs`, with the f64
division modelled exactly on rationals. -/
def convert_to_ui_amount (amount : Nat) (decimals : Nat) : ℚ :=
  if decimals = 0 then (amount : ℚ) else (amount : ℚ) / (10 ^ decimals : ℚ)

/-- `get_trade_type`: Buy when the input mint is SOL, else Sell when the
output mint is SOL, else Swap. -/
def get_trade_type (input_mint output_mint : String) : TradeType :=
  if input_mint = SOL_MINT then TradeType.Buy
  else if output_mint = SOL_MINT then TradeType.Sell
  else TradeType.Swap

/-- `build_fee_info` of `src/protocols/pumpfun/util.rs`. -/
def build_fee_info (mint : String) (amount : Nat) (decimals : Nat) (dex : Option String) :
    FeeInfo :=
  { mint := mint
    amount := convert_to_ui_amount amount decimals
    amount_raw := toString amount
    decimals := decimals
    dex := dex
    fee_type := none
    recipient := none }

/-- `build_token_info` of `src/protocols/pumpfun/util.rs` (the owner
argument is ignored by the source). -/
def build_token_info (mint : String) (amount : Nat) (decimals : Nat)
    (_owner : Option String) : TokenInfo :=
  { mint := mint
    amount := convert_to_ui_amount amount decimals
    amount_raw := toString amount
    decimals := decimals
    authority := none
    destination := none
    destination_owner := none
    destination_balance := none
    destination_pre_balance := none
    source := none
    source_balance := none
    source_pre_balance := none
    destination_balance_change := none
    source_balance_change := none
    balance_change := none }

/-- `get_instruction_data`: decode the instruction's data string. -/
def get_instruction_data (instruction : SolanaInstruction) : Except DexErr (List Nat) :=
  decode_instruction_data instruction.data

/-- `get_prev_instruction_by_index`: the element just before the first
position `i > 0` whose instruction carries the given `(outer, inner)`
indices. -/
def get_prev_instruction_by_index (instructions : List ClassifiedInstruction)
    (outer_index : Nat) (inner_index : Option Nat) : Option ClassifiedInstruction :=
  match (instructions.drop 1).findIdx?
      (fun c => c.outer_index == outer_index && c.inner_index == inner_index) with
  | some j => instructions.get? j
  | none => none

/-! ## Event discriminators

Modelled from the spec: the byte tables live in
`src/protocols/pumpfun/constants.rs`, which is not among the available
sources.  The spec fixes only their length (16 bytes, section 4.6) and
pairwise distinctness (section 8, discriminator exclusivity); the claims
settled here depend on nothing else about the values. -/

/-- Pumpfun Trade event discriminator (spec-modelled, see above). -/
def PUMPFUN_TRADE_DISC : List Nat :=
  [228, 69, 165, 46, 81, 203, 154, 29, 189, 219, 127, 211, 78, 230, 97, 238]

/-- Pumpfun Create event discriminator (spec-modelled). -/
def PUMPFUN_CREATE_DISC : List Nat :=
  [228, 69, 165, 46, 81, 203, 154, 29, 27, 114, 169, 77, 222, 235, 99, 118]

/-- Pumpfun Complete event discriminator (spec-modelled). -/
def PUMPFUN_COMPLETE_DISC : List Nat :=
  [228, 69, 165, 46, 81, 203, 154, 29, 95, 114, 97, 156, 212, 46, 152, 8]

/-- Pumpfun Migrate event discriminator (spec-modelled). -/
def PUMPFUN_MIGRATE_DISC : List Nat :=
  [228, 69, 165, 46, 81, 203, 154, 29, 189, 233, 93, 185, 47, 203, 170, 159]

/-- Pumpswap Buy event discriminator (spec-modelled). -/
def PUMPSWAP_BUY_DISC : List Nat :=
  [228, 69, 165, 46, 81, 203, 154, 29, 103, 244, 82, 31, 44, 245, 119, 119]

/-- Pumpswap Sell event discriminator (spec-modelled). -/
def PUMPSWAP_SELL_DISC : List Nat :=
  [228, 69, 165, 46, 81, 203, 154, 29, 62, 47, 55, 10, 165, 3, 220, 42]

/-- Pumpswap CreatePool event discriminator (spec-modelled). -/
def PUMPSWAP_CREATE_POOL_DISC : List Nat :=
  [228, 69, 165, 46, 81, 203, 154, 29, 177, 49, 12, 210, 160, 118, 167, 116]

/-- Pumpswap AddLiquidity event discriminator (spec-modelled). -/
def PUMPSWAP_ADD_DISC : List Nat :=
  [228, 69, 165, 46, 81, 203, 154, 29, 120, 248, 61, 83, 31, 142, 107, 144]

/-- Pumpswap RemoveLiquidity event discriminator (spec-modelled). -/
def PUMPSWAP_REMOVE_DISC : List Nat :=
  [228, 69, 165, 46, 81, 203, 154, 29, 22, 9, 133, 26, 160, 44, 71, 192]

/-! ## Reader monad

Rust decoders thread `&mut BinaryReader` and bail with `?`; this is the
corresponding state-and-error monad (the state after a failure is the
reader as already mutated). -/

/-- Computations over a `BinaryReader` that may fail. -/
def BRM (α : Type) : Type := BinaryReader → Except DexErr α × BinaryReader

/-- `pure` of the reader monad. -/
def brmPure {α : Type} (a : α) : BRM α := fun r => (.ok a, r)

/-- `bind` of the reader monad: stop at the first error, as Rust `?`. -/
def brmBind {α β : Type} (m : BRM α) (f : α → BRM β) : BRM β := fun r =>
  match m r with
  | (.error e, r2) => (.error e, r2)
  | (.ok a, r2) => f a r2

instance monadBRM : Monad BRM where
  pure := brmPure
  bind := brmBind

/-- `reader.remaining()` as a monadic query. -/
def remainingM : BRM Nat := fun r => (.ok r.remaining, r)

/-- Run a decoder on a fresh reader over `data`, keeping only the result
(the Rust decoders own their reader and drop it on return). -/
def brmRun {α : Type} (m : BRM α) (data : List Nat) : Except DexErr α :=
  (m ⟨data, 0⟩).1

/-! ## Pumpfun event decoding (src/protocols/pumpfun/pumpfun_event_parser.rs) -/

/-- The adapter getters consumed by the event decoders
(`TransactionAdapter::{signature, slot, block_time, signers}`). -/
structure AdapterView where
  signature : String
  slot : Nat
  block_time : Nat
  signers : List String
deriving Repr

/-- Cast of an `i64` value to `u64` (Rust `as u64`, two's complement). -/
def i64AsU64 (v : Int) : Nat := (v % (2 ^ 64 : Int)).toNat

/-- `PumpfunEventParser::decode_trade_event`. -/
def decode_trade_event (data : List Nat) : Except DexErr MemeEvent :=
  brmRun (do
    let mint ← BinaryReader.read_pubkey
    let quote_mint := SOL_MINT
    let sol_amount ← BinaryReader.read_u64
    let token_amount ← BinaryReader.read_u64
    let is_buy_byte ← BinaryReader.read_u8
    let is_buy := is_buy_byte = 1
    let userBytes ← (fun r => BinaryReader.read_fixed_array r 32)
    let user := b58Encode userBytes
    let tsInt ← BinaryReader.read_i64
    let timestamp := i64AsU64 tsInt
    let _virtual_sol ← BinaryReader.read_u64
    let _virtual_token ← BinaryReader.read_u64
    let rem ← remainingM
    let extras ←
      if 52 ≤ rem then do
        let _real_sol_reserves ← BinaryReader.read_u64
        let _real_token_reserves ← BinaryReader.read_u64
        let _fee_recipient ← BinaryReader.read_pubkey
        let fbp ← BinaryReader.read_u16
        let fee ← BinaryReader.read_u64
        let creator ← BinaryReader.read_pubkey
        let cfbp ← BinaryReader.read_u16
        let cfee ← BinaryReader.read_u64
        brmPure (some fbp, some fee, some creator, some cfbp, some cfee)
      else
        brmPure (none, none, none, none, none)
    let (fee_basis_points, fee, creator, creator_fee_basis_points, creator_fee) := extras
    let io :=
      if is_buy then (quote_mint, sol_amount, 9, mint, token_amount, 6)
      else (mint, token_amount, 6, quote_mint, sol_amount, 9)
    let (input_mint, input_amount, input_decimals, output_mint, output_amount,
      output_decimals) := io
    let input_token := build_token_info input_mint input_amount input_decimals (some user)
    let output_token := build_token_info output_mint output_amount output_decimals (some user)
    brmPure
      { event_type := get_trade_type input_mint output_mint
        timestamp := timestamp
        idx := ""
        slot := 0
        signature := ""
        user := user
        base_mint := mint
        quote_mint := quote_mint
        input_token := some input_token
        output_token := some output_token
        name := none
        symbol := none
        uri := none
        decimals := none
        total_supply := none
        fee := fee.map (fun v => (v : ℚ))
        protocol_fee := fee_basis_points.map (fun bps => (bps : ℚ))
        platform_fee := none
        share_fee := none
        creator_fee := creator_fee.map (fun v => (v : ℚ))
        protocol := some PUMP_FUN_PROGRAM_NAME
        platform_config := none
        creator := creator
        bonding_curve := none
        pool := none
        pool_dex := none
        pool_a_reserve := none
        pool_b_reserve := none
        pool_fee_rate := creator_fee_basis_points.map (fun bps => (bps : ℚ)) }) data

/-- `PumpfunEventParser::decode_create_event`. -/
def decode_create_event (A : AdapterView) (data : List Nat) : Except DexErr MemeEvent :=
  brmRun (do
    let name ← BinaryReader.read_string
    let symbol ← BinaryReader.read_string
    let uri ← BinaryReader.read_string
    let mintBytes ← (fun r => BinaryReader.read_fixed_array r 32)
    let mint := b58Encode mintBytes
    let curveBytes ← (fun r => BinaryReader.read_fixed_array r 32)
    let bonding_curve := b58Encode curveBytes
    let userBytes ← (fun r => BinaryReader.read_fixed_array r 32)
    let user := b58Encode userBytes
    let rem ← remainingM
    let head ←
      if 16 ≤ rem then do
        let creator ← BinaryReader.read_pubkey
        let ts ← BinaryReader.read_i64
        brmPure (some creator, if 0 ≤ ts then ts.toNat else A.block_time)
      else
        brmPure (none, A.block_time)
    let (creator, timestamp) := head
    let rem2 ← remainingM
    let reserves ←
      if 32 ≤ rem2 then do
        let vtr ← BinaryReader.read_u64
        let vsr ← BinaryReader.read_u64
        let rtr ← BinaryReader.read_u64
        let tts ← BinaryReader.read_u64
        brmPure (some ((vtr : ℚ)), some ((vsr : ℚ)), some ((rtr : ℚ)), some tts)
      else
        brmPure (none, none, none, none)
    let (virtual_token_reserves, virtual_sol_reserves, real_token_reserves,
      token_total_supply) := reserves
    brmPure
      { event_type := TradeType.Create
        timestamp := timestamp
        idx := ""
        slot := 0
        signature := ""
        user := user
        base_mint := mint
        quote_mint := SOL_MINT
        input_token := none
        output_token := none
        name := some name
        symbol := some symbol
        uri := some uri
        decimals := none
        total_supply := token_total_supply
        fee := none
        protocol_fee := none
        platform_fee := none
        share_fee := none
        creator_fee := none
        protocol := some PUMP_FUN_PROGRAM_NAME
        platform_config := none
        creator := creator
        bonding_curve := some bonding_curve
        pool := none
        pool_dex := none
        pool_a_reserve := virtual_token_reserves
        pool_b_reserve := virtual_sol_reserves
        pool_fee_rate := real_token_reserves }) data

/-- `PumpfunEventParser::decode_complete_event`. -/
def decode_complete_event (data : List Nat) : Except DexErr MemeEvent :=
  brmRun (do
    let userBytes ← (fun r => BinaryReader.read_fixed_array r 32)
    let user := b58Encode userBytes
    let mintBytes ← (fun r => BinaryReader.read_fixed_array r 32)
    let mint := b58Encode mintBytes
    let curveBytes ← (fun r => BinaryReader.read_fixed_array r 32)
    let bonding_curve := b58Encode curveBytes
    let ts ← BinaryReader.read_i64
    let timestamp := if 0 ≤ ts then ts.toNat else 0
    brmPure
      { event_type := TradeType.Complete
        timestamp := timestamp
        idx := ""
        slot := 0
        signature := ""
        user := user
        base_mint := mint
        quote_mint := SOL_MINT
        input_token := none
        output_token := none
        name := none
        symbol := none
        uri := none
        decimals := none
        total_supply := none
        fee := none
        protocol_fee := none
        platform_fee := none
        share_fee := none
        creator_fee := none
        protocol := some PUMP_FUN_PROGRAM_NAME
        platform_config := none
        creator := none
        bonding_curve := some bonding_curve
        pool := none
        pool_dex := none
        pool_a_reserve := none
        pool_b_reserve := none
        pool_fee_rate := none }) data

/-- `PumpfunEventParser::decode_migrate_event`. -/
def decode_migrate_event (data : List Nat) : Except DexErr MemeEvent :=
  brmRun (do
    let userBytes ← (fun r => BinaryReader.read_fixed_array r 32)
    let user := b58Encode userBytes
    let mintBytes ← (fun r => BinaryReader.read_fixed_array r 32)
    let mint := b58Encode mintBytes
    let _mint_amount ← BinaryReader.read_u64
    let _sol_amount ← BinaryReader.read_u64
    let pool_migrate_fee ← BinaryReader.read_u64
    let curveBytes ← (fun r => BinaryReader.read_fixed_array r 32)
    let bonding_curve := b58Encode curveBytes
    let ts ← BinaryReader.read_i64
    let timestamp := if 0 ≤ ts then ts.toNat else 0
    let pool ← BinaryReader.read_pubkey
    brmPure
      { event_type := TradeType.Migrate
        timestamp := timestamp
        idx := ""
        slot := 0
        signature := ""
        user := user
        base_mint := mint
        quote_mint := SOL_MINT
        input_token := none
        output_token := none
        name := none
        symbol := none
        uri := none
        decimals := none
        total_supply := none
        fee := some ((pool_migrate_fee : ℚ))
        protocol_fee := none
        platform_fee := none
        share_fee := none
        creator_fee := none
        protocol := some PUMP_FUN_PROGRAM_NAME
        platform_config := none
        creator := none
        bonding_curve := some bonding_curve
        pool := some pool
        pool_dex := some PUMP_SWAP_PROGRAM_NAME
        pool_a_reserve := none
        pool_b_reserve := none
        pool_fee_rate := none }) data

/-- One iteration of `PumpfunEventParser::parse_instructions`: decode the
instruction's data, dispatch on the 16-byte discriminator, and stamp the
event with the bonding curve, signature, slot, timestamp and idx. -/
def pumpfunProcessOne (A : AdapterView) (instructions : List ClassifiedInstruction)
    (classified : ClassifiedInstruction) : Except DexErr (Option MemeEvent) := do
  let data ← get_instruction_data classified.data
  if data.length < 16 then
    pure none
  else
    let discriminator := data.take 16
    let payload := data.drop 16
    let event ←
      if discriminator = PUMPFUN_TRADE_DISC then do
        let e ← decode_trade_event payload
        pure (some e)
      else if discriminator = PUMPFUN_CREATE_DISC then do
        let e ← decode_create_event A payload
        pure (some e)
      else if discriminator = PUMPFUN_COMPLETE_DISC then do
        let e ← decode_complete_event payload
        pure (some e)
      else if discriminator = PUMPFUN_MIGRATE_DISC then do
        let e ← decode_migrate_event payload
        pure (some e)
      else
        pure none
    match event with
    | none => pure none
    | some meme0 =>
      let meme1 :=
        if meme0.event_type = TradeType.Buy ∨ meme0.event_type = TradeType.Sell then
          match get_prev_instruction_by_index instructions classified.outer_index
              classified.inner_index with
          | some prev =>
            match prev.data.accounts.get? 3 with
            | some account => { meme0 with bonding_curve := some account }
            | none => meme0
          | none => meme0
        else meme0
      pure (some
        { meme1 with
          signature := A.signature
          slot := A.slot
          timestamp := A.block_time
          idx := toString classified.outer_index ++ "-" ++
            toString (classified.inner_index.getD 0) })

/-- The instruction loop of `PumpfunEventParser::parse_instructions`; the
first decoding error aborts it (Rust `?`). -/
def pumpfunParseGo (A : AdapterView) (all : List ClassifiedInstruction) :
    List ClassifiedInstruction → Except DexErr (List MemeEvent)
  | [] => .ok []
  | c :: rest => do
    let ev ← pumpfunProcessOne A all c
    let tail ← pumpfunParseGo A all rest
    match ev with
    | some e => pure (e :: tail)
    | none => pure tail

/-- `PumpfunEventParser::parse_instructions`: run the loop, then sort the
collected events by idx. -/
def PumpfunEvents.parse_instructions (A : AdapterView)
    (instructions : List ClassifiedInstruction) : Except DexErr (List MemeEvent) := do
  let events ← pumpfunParseGo A instructions instructions
  pure (sort_by_idx (fun e => e.idx) events)

/-! ## Pumpswap events (src/protocols/pumpfun/pumpswap_event_parser.rs) -/

/-- `PumpswapEventType`. -/
inductive PumpswapEventType where
  | Create
  | Add
  | Remove
  | Buy
  | Sell
deriving DecidableEq, Repr

/-- `PumpswapBuyEvent`. -/
structure PumpswapBuyEvent where
  timestamp : Nat
  base_amount_out : Nat
  max_quote_amount_in : Nat
  user_base_token_reserves : Nat
  user_quote_token_reserves : Nat
  pool_base_token_reserves : Nat
  pool_quote_token_reserves : Nat
  quote_amount_in : Nat
  lp_fee_basis_points : Nat
  lp_fee : Nat
  protocol_fee_basis_points : Nat
  protocol_fee : Nat
  quote_amount_in_with_lp_fee : Nat
  user_quote_amount_in : Nat
  pool : String
  user : String
  user_base_token_account : String
  user_quote_token_account : String
  protocol_fee_recipient : String
  protocol_fee_recipient_token_account : String
  coin_creator : String
  coin_creator_fee_basis_points : Nat
  coin_creator_fee : Nat
deriving Repr

/-- `PumpswapSellEvent`. -/
structure PumpswapSellEvent where
  timestamp : Nat
  base_amount_in : Nat
  min_quote_amount_out : Nat
  user_base_token_reserves : Nat
  user_quote_token_reserves : Nat
  pool_base_token_reserves : Nat
  pool_quote_token_reserves : Nat
  quote_amount_out : Nat
  lp_fee_basis_points : Nat
  lp_fee : Nat
  protocol_fee_basis_points : Nat
  protocol_fee : Nat
  quote_amount_out_without_lp_fee : Nat
  user_quote_amount_out : Nat
  pool : String
  user : String
  user_base_token_account : String
  user_quote_token_account : String
  protocol_fee_recipient : String
  protocol_fee_recipient_token_account : String
  coin_creator : String
  coin_creator_fee_basis_points : Nat
  coin_creator_fee : Nat
deriving Repr

/-- `PumpswapCreatePoolEvent`. -/
structure PumpswapCreatePoolEvent where
  timestamp : Nat
  index : Nat
  creator : String
  base_mint : String
  quote_mint : String
  base_mint_decimals : Nat
  quote_mint_decimals : Nat
  base_amount_in : Nat
  quote_amount_in : Nat
  pool_base_amount : Nat
  pool_quote_amount : Nat
  minimum_liquidity : Nat
  initial_liquidity : Nat
  lp_token_amount_out : Nat
  pool_bump : Nat
  pool : String
  lp_mint : String
  user_base_token_account : String
  user_quote_token_account : String
deriving Repr

/-- `PumpswapDepositEvent`. -/
structure PumpswapDepositEvent where
  timestamp : Nat
  lp_token_amount_out : Nat
  max_base_amount_in : Nat
  max_quote_amount_in : Nat
  user_base_token_reserves : Nat
  user_quote_token_reserves : Nat
  pool_base_token_reserves : Nat
  pool_quote_token_reserves : Nat
  base_amount_in : Nat
  quote_amount_in : Nat
  lp_mint_supply : Nat
  pool : String
  user : String
  user_base_token_account : String
  user_quote_token_account : String
  user_pool_token_account : String
deriving Repr

/-- `PumpswapWithdrawEvent`. -/
structure PumpswapWithdrawEvent where
  timestamp : Nat
  lp_token_amount_in : Nat
  min_base_amount_out : Nat
  min_quote_amount_out : Nat
  user_base_token_reserves : Nat
  user_quote_token_reserves : Nat
  pool_base_token_reserves : Nat
  pool_quote_token_reserves : Nat
  base_amount_out : Nat
  quote_amount_out : Nat
  lp_mint_supply : Nat
  pool : String
  user : String
  user_base_token_account : String
  user_quote_token_account : String
  user_pool_token_account : String
deriving Repr

/-- `PumpswapEventData`. -/
inductive PumpswapEventData where
  | Buy (data : PumpswapBuyEvent)
  | Sell (data : PumpswapSellEvent)
  | Create (data : PumpswapCreatePoolEvent)
  | Deposit (data : PumpswapDepositEvent)
  | Withdraw (data : PumpswapWithdrawEvent)
deriving Repr

/-- `PumpswapEvent`. -/
structure PumpswapEvent where
  event_type : PumpswapEventType
  data : PumpswapEventData
  slot : Nat
  timestamp : Nat
  signature : String
  idx : String
  signer : Option (List String)
deriving Repr

/-- `read_timestamp`: an i64 clamped to zero when negative. -/
def read_timestamp : BRM Nat := do
  let v ← BinaryReader.read_i64
  brmPure (if 0 ≤ v then v.toNat else 0)

/-- Default `coin_creator` when the payload carries no creator tail
(the all-ones system address literal of the source). -/
def DEFAULT_COIN_CREATOR : String := "11111111111111111111111111111111"

/-- `PumpswapEventParser::decode_buy_event`. -/
def decode_buy_event (data : List Nat) : Except DexErr PumpswapBuyEvent :=
  brmRun (do
    let timestamp ← read_timestamp
    let base_amount_out ← BinaryReader.read_u64
    let max_quote_amount_in ← BinaryReader.read_u64
    let user_base_token_reserves ← BinaryReader.read_u64
    let user_quote_token_reserves ← BinaryReader.read_u64
    let pool_base_token_reserves ← BinaryReader.read_u64
    let pool_quote_token_reserves ← BinaryReader.read_u64
    let quote_amount_in ← BinaryReader.read_u64
    let lp_fee_basis_points ← BinaryReader.read_u64
    let lp_fee ← BinaryReader.read_u64
    let protocol_fee_basis_points ← BinaryReader.read_u64
    let protocol_fee ← BinaryReader.read_u64
    let quote_amount_in_with_lp_fee ← BinaryReader.read_u64
    let user_quote_amount_in ← BinaryReader.read_u64
    let pool ← BinaryReader.read_pubkey
    let user ← BinaryReader.read_pubkey
    let user_base_token_account ← BinaryReader.read_pubkey
    let user_quote_token_account ← BinaryReader.read_pubkey
    let protocol_fee_recipient ← BinaryReader.read_pubkey
    let protocol_fee_recipient_token_account ← BinaryReader.read_pubkey
    let rem1 ← remainingM
    let coin_creator ←
      if 0 < rem1 then BinaryReader.read_pubkey else brmPure DEFAULT_COIN_CREATOR
    let rem2 ← remainingM
    let coin_creator_fee_basis_points ←
      if 0 < rem2 then BinaryReader.read_u64 else brmPure 0
    let rem3 ← remainingM
    let coin_creator_fee ←
      if 0 < rem3 then BinaryReader.read_u64 else brmPure 0
    brmPure
      { timestamp, base_amount_out, max_quote_amount_in, user_base_token_reserves,
        user_quote_token_reserves, pool_base_token_reserves, pool_quote_token_reserves,
        quote_amount_in, lp_fee_basis_points, lp_fee, protocol_fee_basis_points,
        protocol_fee, quote_amount_in_with_lp_fee, user_quote_amount_in, pool, user,
        user_base_token_account, user_quote_token_account, protocol_fee_recipient,
        protocol_fee_recipient_token_account, coin_creator,
        coin_creator_fee_basis_points, coin_creator_fee }) data

/-- `PumpswapEventParser::decode_sell_event`. -/
def decode_sell_event (data : List Nat) : Except DexErr PumpswapSellEvent :=
  brmRun (do
    let timestamp ← read_timestamp
    let base_amount_in ← BinaryReader.read_u64
    let min_quote_amount_out ← BinaryReader.read_u64
    let user_base_token_reserves ← BinaryReader.read_u64
    let user_quote_token_reserves ← BinaryReader.read_u64
    let pool_base_token_reserves ← BinaryReader.read_u64
    let pool_quote_token_reserves ← BinaryReader.read_u64
    let quote_amount_out ← BinaryReader.read_u64
    let lp_fee_basis_points ← BinaryReader.read_u64
    let lp_fee ← BinaryReader.read_u64
    let protocol_fee_basis_points ← BinaryReader.read_u64
    let protocol_fee ← BinaryReader.read_u64
    let quote_amount_out_without_lp_fee ← BinaryReader.read_u64
    let user_quote_amount_out ← BinaryReader.read_u64
    let pool ← BinaryReader.read_pubkey
    let user ← BinaryReader.read_pubkey
    let user_base_token_account ← BinaryReader.read_pubkey
    let user_quote_token_account ← BinaryReader.read_pubkey
    let protocol_fee_recipient ← BinaryReader.read_pubkey
    let protocol_fee_recipient_token_account ← BinaryReader.read_pubkey
    let rem1 ← remainingM
    let coin_creator ←
      if 0 < rem1 then BinaryReader.read_pubkey else brmPure DEFAULT_COIN_CREATOR
    let rem2 ← remainingM
    let coin_creator_fee_basis_points ←
      if 0 < rem2 then BinaryReader.read_u64 else brmPure 0
    let rem3 ← remainingM
    let coin_creator_fee ←
      if 0 < rem3 then BinaryReader.read_u64 else brmPure 0
    brmPure
      { timestamp, base_amount_in, min_quote_amount_out, user_base_token_reserves,
        user_quote_token_reserves, pool_base_token_reserves, pool_quote_token_reserves,
        quote_amount_out, lp_fee_basis_points, lp_fee, protocol_fee_basis_points,
        protocol_fee, quote_amount_out_without_lp_fee, user_quote_amount_out, pool, user,
        user_base_token_account, user_quote_token_account, protocol_fee_recipient,
        protocol_fee_recipient_token_account, coin_creator,
        coin_creator_fee_basis_points, coin_creator_fee }) data

/-- `PumpswapEventParser::decode_create_event`. -/
def decode_pool_create_event (data : List Nat) : Except DexErr PumpswapCreatePoolEvent :=
  brmRun (do
    let timestamp ← read_timestamp
    let index ← BinaryReader.read_u16
    let creator ← BinaryReader.read_pubkey
    let base_mint ← BinaryReader.read_pubkey
    let quote_mint ← BinaryReader.read_pubkey
    let base_mint_decimals ← BinaryReader.read_u8
    let quote_mint_decimals ← BinaryReader.read_u8
    let base_amount_in ← BinaryReader.read_u64
    let quote_amount_in ← BinaryReader.read_u64
    let pool_base_amount ← BinaryReader.read_u64
    let pool_quote_amount ← BinaryReader.read_u64
    let minimum_liquidity ← BinaryReader.read_u64
    let initial_liquidity ← BinaryReader.read_u64
    let lp_token_amount_out ← BinaryReader.read_u64
    let pool_bump ← BinaryReader.read_u8
    let pool ← BinaryReader.read_pubkey
    let lp_mint ← BinaryReader.read_pubkey
    let user_base_token_account ← BinaryReader.read_pubkey
    let user_quote_token_account ← BinaryReader.read_pubkey
    brmPure
      { timestamp, index, creator, base_mint, quote_mint, base_mint_decimals,
        quote_mint_decimals, base_amount_in, quote_amount_in, pool_base_amount,
        pool_quote_amount, minimum_liquidity, initial_liquidity, lp_token_amount_out,
        pool_bump, pool, lp_mint, user_base_token_account, user_quote_token_account }) data

/-- `PumpswapEventParser::decode_add_liquidity`. -/
def decode_add_liquidity (data : List Nat) : Except DexErr PumpswapDepositEvent :=
  brmRun (do
    let timestamp ← read_timestamp
    let lp_token_amount_out ← BinaryReader.read_u64
    let max_base_amount_in ← BinaryReader.read_u64
    let max_quote_amount_in ← BinaryReader.read_u64
    let user_base_token_reserves ← BinaryReader.read_u64
    let user_quote_token_reserves ← BinaryReader.read_u64
    let pool_base_token_reserves ← BinaryReader.read_u64
    let pool_quote_token_reserves ← BinaryReader.read_u64
    let base_amount_in ← BinaryReader.read_u64
    let quote_amount_in ← BinaryReader.read_u64
    let lp_mint_supply ← BinaryReader.read_u64
    let pool ← BinaryReader.read_pubkey
    let user ← BinaryReader.read_pubkey
    let user_base_token_account ← BinaryReader.read_pubkey
    let user_quote_token_account ← BinaryReader.read_pubkey
    let user_pool_token_account ← BinaryReader.read_pubkey
    brmPure
      { timestamp, lp_token_amount_out, max_base_amount_in, max_quote_amount_in,
        user_base_token_reserves, user_quote_token_reserves, pool_base_token_reserves,
        pool_quote_token_reserves, base_amount_in, quote_amount_in, lp_mint_supply,
        pool, user, user_base_token_account, user_quote_token_account,
        user_pool_token_account }) data

/-- `PumpswapEventParser::decode_remove_liquidity`. -/
def decode_remove_liquidity (data : List Nat) : Except DexErr PumpswapWithdrawEvent :=
  brmRun (do
    let timestamp ← read_timestamp
    let lp_token_amount_in ← BinaryReader.read_u64
    let min_base_amount_out ← BinaryReader.read_u64
    let min_quote_amount_out ← BinaryReader.read_u64
    let user_base_token_reserves ← BinaryReader.read_u64
    let user_quote_token_reserves ← BinaryReader.read_u64
    let pool_base_token_reserves ← BinaryReader.read_u64
    let pool_quote_token_reserves ← BinaryReader.read_u64
    let base_amount_out ← BinaryReader.read_u64
    let quote_amount_out ← BinaryReader.read_u64
    let lp_mint_supply ← BinaryReader.read_u64
    let pool ← BinaryReader.read_pubkey
    let user ← BinaryReader.read_pubkey
    let user_base_token_account ← BinaryReader.read_pubkey
    let user_quote_token_account ← BinaryReader.read_pubkey
    let user_pool_token_account ← BinaryReader.read_pubkey
    brmPure
      { timestamp, lp_token_amount_in, min_base_amount_out, min_quote_amount_out,
        user_base_token_reserves, user_quote_token_reserves, pool_base_token_reserves,
        pool_quote_token_reserves, base_amount_out, quote_amount_out, lp_mint_supply,
        pool, user, user_base_token_account, user_quote_token_account,
        user_pool_token_account }) data

/-- `PumpswapEventParser::decode_event`: dispatch to the per-kind decoder. -/
def pumpswapDecodeEvent (event_type : PumpswapEventType) (data : List Nat) :
    Except DexErr PumpswapEventData :=
  match event_type with
  | .Buy => (decode_buy_event data).map PumpswapEventData.Buy
  | .Sell => (decode_sell_event data).map PumpswapEventData.Sell
  | .Create => (decode_pool_create_event data).map PumpswapEventData.Create
  | .Add => (decode_add_liquidity data).map PumpswapEventData.Deposit
  | .Remove => (decode_remove_liquidity data).map PumpswapEventData.Withdraw

/-- One iteration of `PumpswapEventParser::parse_instructions`. -/
def pumpswapProcessOne (A : AdapterView) (classified : ClassifiedInstruction) :
    Except DexErr (Option PumpswapEvent) := do
  let data ← get_instruction_data classified.data
  if data.length < 16 then
    pure none
  else
    let discriminator := data.take 16
    let payload := data.drop 16
    let event_type : Option PumpswapEventType :=
      if discriminator = PUMPSWAP_CREATE_POOL_DISC then some .Create
      else if discriminator = PUMPSWAP_ADD_DISC then some .Add
      else if discriminator = PUMPSWAP_REMOVE_DISC then some .Remove
      else if discriminator = PUMPSWAP_BUY_DISC then some .Buy
      else if discriminator = PUMPSWAP_SELL_DISC then some .Sell
      else none
    match event_type with
    | none => pure none
    | some et => do
      let d ← pumpswapDecodeEvent et payload
      pure (some
        { event_type := et
          data := d
          slot := A.slot
          timestamp := A.block_time
          signature := A.signature
          idx := toString classified.outer_index ++ "-" ++
            toString (classified.inner_index.getD 0)
          signer := some A.signers })

/-- The instruction loop of `PumpswapEventParser::parse_instructions`. -/
def pumpswapParseGo (A : AdapterView) :
    List ClassifiedInstruction → Except DexErr (List PumpswapEvent)
  | [] => .ok []
  | c :: rest => do
    let ev ← pumpswapProcessOne A c
    let tail ← pumpswapParseGo A rest
    match ev with
    | some e => pure (e :: tail)
    | none => pure tail

/-- `PumpswapEventParser::parse_instructions`. -/
def PumpswapEvents.parse_instructions (A : AdapterView)
    (instructions : List ClassifiedInstruction) : Except DexErr (List PumpswapEvent) := do
  let events ← pumpswapParseGo A instructions
  pure (sort_by_idx (fun e => e.idx) events)

/-! ## Pumpswap trade assembly (src/protocols/pumpfun/util.rs) -/

/-- `get_pumpswap_trade_info`: assemble a `TradeInfo` from a decoded
pumpswap event, the DEX info and resolved `(mint, decimals, amount)`
triples. -/
def get_pumpswap_trade_info (event : PumpswapEvent) (dex_info : DexInfo)
    (input output : String × Nat × Nat) (fee : FeeInfo) (fees : List FeeInfo)
    (user : String) : TradeInfo :=
  let (input_mint, input_decimals, input_amount) := input
  let (output_mint, output_decimals, output_amount) := output
  { trade_type := get_trade_type input_mint output_mint
    pool :=
      match event.data with
      | .Buy d => [d.pool]
      | .Sell d => [d.pool]
      | _ => []
    input_token := build_token_info input_mint input_amount input_decimals none
    output_token := build_token_info output_mint output_amount output_decimals none
    slippage_bps := none
    fee := some fee
    fees := fees
    user := some user
    program_id := some (dex_info.program_id.getD PUMP_SWAP_PROGRAM_ID)
    amm := some (dex_info.amm.getD PUMP_SWAP_PROGRAM_NAME)
    amms := none
    route := some (dex_info.route.getD "")
    slot := event.slot
    timestamp := event.timestamp
    signature := event.signature
    idx := event.idx
    signer := event.signer }

/-- `build_pumpswap_buy_trade`: protocol fee entry always, coinCreator entry
when the creator fee is non-zero; the summary fee carries the u64 sum of
both fees both raw and ui. -/
def build_pumpswap_buy_trade (event : PumpswapEvent) (buy : PumpswapBuyEvent)
    (input output fee : String × Nat) (dex_info : DexInfo) : TradeInfo :=
  let (input_mint, input_decimals) := input
  let (output_mint, output_decimals) := output
  let (fee_mint, fee_decimals) := fee
  let total_fee := (buy.protocol_fee + buy.coin_creator_fee) % 2 ^ 64
  let fees :=
    [{ mint := fee_mint
       amount := convert_to_ui_amount buy.protocol_fee fee_decimals
       amount_raw := toString buy.protocol_fee
       decimals := fee_decimals
       dex := some PUMP_SWAP_PROGRAM_NAME
       fee_type := some "protocol"
       recipient := some buy.protocol_fee_recipient }] ++
    (if 0 < buy.coin_creator_fee then
      [{ mint := fee_mint
         amount := convert_to_ui_amount buy.coin_creator_fee fee_decimals
         amount_raw := toString buy.coin_creator_fee
         decimals := fee_decimals
         dex := some PUMP_SWAP_PROGRAM_NAME
         fee_type := some "coinCreator"
         recipient := some buy.coin_creator }]
    else [])
  let fee_info : FeeInfo :=
    { mint := fee_mint
      amount := convert_to_ui_amount total_fee fee_decimals
      amount_raw := toString total_fee
      decimals := fee_decimals
      dex := none
      fee_type := none
      recipient := none }
  get_pumpswap_trade_info event dex_info
    (input_mint, input_decimals, buy.quote_amount_in_with_lp_fee)
    (output_mint, output_decimals, buy.base_amount_out)
    fee_info fees buy.user

/-- `build_pumpswap_sell_trade`: as in the source, the summary fee's ui
amount is computed from the fee total while its raw string is
`sell.protocol_fee.to_string()`. -/
def build_pumpswap_sell_trade (event : PumpswapEvent) (sell : PumpswapSellEvent)
    (input output fee : String × Nat) (dex_info : DexInfo) : TradeInfo :=
  let (input_mint, input_decimals) := input
  let (output_mint, output_decimals) := output
  let (fee_mint, fee_decimals) := fee
  let total_fee := (sell.protocol_fee + sell.coin_creator_fee) % 2 ^ 64
  let fees :=
    [{ mint := fee_mint
       amount := convert_to_ui_amount sell.protocol_fee fee_decimals
       amount_raw := toString sell.protocol_fee
       decimals := fee_decimals
       dex := some PUMP_SWAP_PROGRAM_NAME
       fee_type := some "protocol"
       recipient := some sell.protocol_fee_recipient }] ++
    (if 0 < sell.coin_creator_fee then
      [{ mint := fee_mint
         amount := convert_to_ui_amount sell.coin_creator_fee fee_decimals
         amount_raw := toString sell.coin_creator_fee
         decimals := fee_decimals
         dex := some PUMP_SWAP_PROGRAM_NAME
         fee_type := some "coinCreator"
         recipient := some sell.coin_creator }]
    else [])
  let fee_info : FeeInfo :=
    { mint := fee_mint
      amount := convert_to_ui_amount total_fee fee_decimals
      amount_raw := toString sell.protocol_fee
      decimals := fee_decimals
      dex := some PUMP_SWAP_PROGRAM_NAME
      fee_type := none
      recipient := none }
  get_pumpswap_trade_info event dex_info
    (input_mint, input_decimals, sell.base_amount_in)
    (output_mint, output_decimals, sell.user_quote_amount_out)
    fee_info fees sell.user

/-! ## TransactionAdapter (src/core/transaction_adapter.rs)

Only the parts reached by the claims are embedded: account-key extraction,
keyed lookup, token-account owner lookup and the token balance-change map.
The `TxMessage`/`TokenBalance` types consumed by the adapter are declared
in the crate's `types.rs`, which is not among the sources; they are
modelled from the spec's input format (section 6) and the adapter's usage. -/

/-- One entry of `preTokenBalances`/`postTokenBalances` (`TokenBalance`,
modelled from the spec). -/
structure TokenBalance where
  account : String
  mint : String
  owner : Option String
  ui_token_amount : TokenAmountR
deriving Repr

/-- The message of a transaction as consumed by `extract_account_keys`
(`TxMessage`, modelled from the spec): static keys, then loaded writable
and readonly addresses from address-table lookups. -/
structure TxMessage where
  static_keys : List String
  loaded_writable : List String
  loaded_readonly : List String
  num_required_signatures : Option Nat
deriving Repr

/-- One inner-instruction block (`InnerInstruction`). -/
structure InnerInstructionBlock where
  index : Nat
  instructions : List SolanaInstruction
deriving Repr

/-- Transaction meta (`meta`): the fields reached by the embedded adapter
functions. -/
structure TxMeta where
  pre_balances : Option (List Nat)
  post_balances : Option (List Nat)
deriving Repr

/-- A normalized transaction (`SolanaTransaction`), restricted to the
fields reached by the embedded adapter functions. -/
structure SolanaTransaction where
  slot : Nat
  signature : String
  block_time : Option Nat
  message : TxMessage
  instructions : List SolanaInstruction
  inner_instructions : List InnerInstructionBlock
  meta : TxMeta
  pre_token_balances : Option (List TokenBalance)
  post_token_balances : Option (List TokenBalance)
deriving Repr

/-- Byte-order comparison of strings (Rust `String: Ord`), as a Bool on
character lists (UTF-8 byte order coincides with code-point order). -/
def charListLeB : List Char → List Char → Bool
  | [], _ => true
  | _ :: _, [] => false
  | a :: as2, b :: bs2 =>
    if a < b then true else if b < a then false else charListLeB as2 bs2

/-- The string order used by `Vec<String>::sort()`. -/
def strLe (a b : String) : Prop := charListLeB a.data b.data = true

instance : DecidableRel strLe := by
  intro a b
  unfold strLe
  infer_instance

/-- `TransactionAdapter::extract_account_keys`: all keys from the message,
the instructions and the inner instructions are collected into a
`HashSet` (dropping duplicates), and the set is then **sorted**; the
result is the sorted list of the distinct keys. -/
def extract_account_keys (tx : SolanaTransaction) : List String :=
  let all :=
    tx.message.static_keys ++ tx.message.loaded_writable ++ tx.message.loaded_readonly ++
    tx.instructions.flatMap (fun ix => ix.accounts ++ [ix.program_id]) ++
    tx.inner_instructions.flatMap
      (fun inner => inner.instructions.flatMap (fun ix => ix.accounts ++ [ix.program_id]))
  List.insertionSort strLe all.dedup

/-- `TransactionAdapter::get_account_key`: the key at `index` of the
extracted account-key list, or the empty string. -/
def get_account_key (tx : SolanaTransaction) (index : Nat) : String :=
  (extract_account_keys tx).getD index ""

/-- `TransactionAdapter::get_token_account_owner`: the owner recorded in
the post token balances, then in the pre token balances. -/
def get_token_account_owner (tx : SolanaTransaction) (account_key : String) :
    Option String :=
  match tx.post_token_balances with
  | some post =>
    match post.find? (fun b => b.account = account_key) with
    | some b => b.owner
    | none =>
      match tx.pre_token_balances with
      | some pre =>
        match pre.find? (fun b => b.account = account_key) with
        | some b => b.owner
        | none => none
      | none => none
  | none =>
    match tx.pre_token_balances with
    | some pre =>
      match pre.find? (fun b => b.account = account_key) with
      | some b => b.owner
      | none => none
    | none => none

/-- A balance change entry (`BalanceChange` of the rich type model). -/
structure BalanceChangeR where
  pre : TokenAmountR
  post : TokenAmountR
  change : TokenAmountR
deriving Repr

/-- Association-list lookup modelling `HashMap::get`. -/
def alGet {β : Type} (m : List (String × β)) (k : String) : Option β :=
  (m.find? (fun kv => kv.1 = k)).map (fun kv => kv.2)

/-- Association-list insert-or-replace modelling `HashMap::insert`. -/
def alSet {β : Type} (m : List (String × β)) (k : String) (v : β) : List (String × β) :=
  match m with
  | [] => [(k, v)]
  | kv :: rest => if kv.1 = k then (k, v) :: rest else kv :: alSet rest k v

/-- Association-list removal modelling `HashMap::remove`. -/
def alRemove {β : Type} (m : List (String × β)) (k : String) : List (String × β) :=
  m.filter (fun kv => kv.1 ≠ k)

/-- Rust `str::parse::<i128>().unwrap_or(0)`: optional sign, decimal
digits, zero on failure or overflow. -/
def parseI128 (s : String) : Int :=
  match s.data with
  | '+' :: cs =>
    match digitsVal cs with
    | some n => if n < 2 ^ 127 then (n : Int) else 0
    | none => 0
  | '-' :: cs =>
    match digitsVal cs with
    | some n => if n ≤ 2 ^ 127 then -(n : Int) else 0
    | none => 0
  | cs =>
    match digitsVal cs with
    | some n => if n < 2 ^ 127 then (n : Int) else 0
    | none => 0

/-- A zero token amount with the given decimals. -/
def zeroAmount (decimals : Nat) : TokenAmountR :=
  { amount := "0", ui_amount := some 0, decimals := decimals }

/-- The key under which a balance entry is recorded: the token-account
owner when `is_owner` (falling back to the account), else the account. -/
def balanceChangeKey (tx : SolanaTransaction) (is_owner : Bool) (key : String) : String :=
  if is_owner then (get_token_account_owner tx key).getD key else key

/-- The pre-token-balance pass of `get_account_token_balance_changes`:
every account/mint seen in `preTokenBalances` gets an entry with its pre
amount, a zero post placeholder and a zero change placeholder (only if not
already present). -/
def tokenChangesPrePass (tx : SolanaTransaction) (is_owner : Bool)
    (changes : List (String × List (String × BalanceChangeR))) (b : TokenBalance) :
    List (String × List (String × BalanceChangeR)) :=
  if b.mint = "" then changes
  else
    let account_key := balanceChangeKey tx is_owner b.account
    let entry := (alGet changes account_key).getD []
    let entry2 :=
      if (alGet entry b.mint).isSome then entry
      else
        alSet entry b.mint
          { pre := b.ui_token_amount
            post := zeroAmount b.ui_token_amount.decimals
            change := zeroAmount b.ui_token_amount.decimals }
    alSet changes account_key entry2

/-- The post-token-balance pass of `get_account_token_balance_changes`:
entries seen in pre are completed with the post amount and the raw delta
(dropped when the delta is zero); accounts only in post get `pre = 0`. -/
def tokenChangesPostPass (tx : SolanaTransaction) (is_owner : Bool)
    (changes : List (String × List (String × BalanceChangeR))) (b : TokenBalance) :
    List (String × List (String × BalanceChangeR)) :=
  if b.mint = "" then changes
  else
    let account_key := balanceChangeKey tx is_owner b.account
    let entry := (alGet changes account_key).getD []
    let entry2 :=
      match alGet entry b.mint with
      | some ch =>
        let pre_raw := parseI128 ch.pre.amount
        let post_raw := parseI128 b.ui_token_amount.amount
        let diff := post_raw - pre_raw
        if diff = 0 then alRemove entry b.mint
        else
          alSet entry b.mint
            { pre := ch.pre
              post := b.ui_token_amount
              change :=
                { amount := toString diff
                  ui_amount := some
                    ((b.ui_token_amount.ui_amount.getD 0) - (ch.pre.ui_amount.getD 0))
                  decimals := b.ui_token_amount.decimals } }
      | none =>
        alSet entry b.mint
          { pre := zeroAmount b.ui_token_amount.decimals
            post := b.ui_token_amount
            change := b.ui_token_amount }
    alSet changes account_key entry2

/-- `TransactionAdapter::get_account_token_balance_changes`: the pre pass,
then the post pass, then removal of empty per-account maps. -/
def get_account_token_balance_changes (tx : SolanaTransaction) (is_owner : Bool) :
    List (String × List (String × BalanceChangeR)) :=
  let afterPre :=
    match tx.pre_token_balances with
    | some pre => pre.foldl (tokenChangesPrePass tx is_owner) []
    | none => []
  let afterPost :=
    match tx.post_token_balances with
    | some post => post.foldl (tokenChangesPostPass tx is_owner) afterPre
    | none => afterPre
  afterPost.filter (fun kv => ¬ kv.2.isEmpty)

/-! ## SimpleMemeParser (src/protocols/simple/simple_meme.rs)

This module uses the plain types of the crate's simple `types.rs` (which is
among the sources).  `transfer_actions` is a `HashMap<String, Vec<TransferData>>`;
`process_events` walks `values()` in the map's iteration order, which is
modelled here by an explicit entry list. -/

/-- Simple `TokenAmount` (src/types.rs). -/
structure SimpleTokenAmount where
  mint : String
  amount : Nat
  decimals : Nat
deriving DecidableEq, Repr

/-- Simple `TransferData` (src/types.rs); the Rust fields `from`/`to` are
renamed `from_addr`/`to_addr` because they are Lean keywords. -/
structure SimpleTransferData where
  program_id : String
  from_addr : String
  to_addr : String
  amount : SimpleTokenAmount
  idx : String
deriving DecidableEq, Repr

/-- Simple `MemeEvent` (src/types.rs). -/
structure SimpleMemeEvent where
  program_id : String
  event_type : String
  signature : String
  description : String
deriving DecidableEq, Repr

/-- `SimpleMemeParser::process_events`: one event per transfer, walking the
transfer map's values in iteration order (`entries` lists the map's
key–value pairs in that order). -/
def SimpleMeme.process_events (signature : String)
    (entries : List (String × List SimpleTransferData)) : List SimpleMemeEvent :=
  entries.flatMap (fun kv =>
    kv.2.map (fun transfer =>
      { program_id := transfer.program_id
        event_type := "meme-event"
        signature := signature
        description :=
          transfer.from_addr ++ " -> " ++ transfer.to_addr ++ " " ++
            toString transfer.amount.amount }))

/-! ## Theorems -/

/-- Successful bounds check. -/
theorem check_bounds_ok (r : BinaryReader) (n : Nat) (hc : r.offset + n ≤ r.buffer.length) :
    r.check_bounds n = .ok () := by
  unfold BinaryReader.check_bounds
  rw [if_neg]
  omega

/-- Failing bounds check. -/
theorem check_bounds_fail (r : BinaryReader) (n : Nat)
    (hc : r.buffer.length < r.offset + n) :
    r.check_bounds n = .error (.bufferOverrun n r.offset r.buffer.length) := by
  unfold BinaryReader.check_bounds
  rw [if_pos]
  omega

/-- Behaviour of `read_fixed_array` in both cases. -/
theorem read_fixed_array_eq (r : BinaryReader) (n : Nat) (h : r.offset ≤ r.buffer.length) :
    r.read_fixed_array n =
      if n ≤ r.remaining then
        (.ok ((r.buffer.drop r.offset).take n), { r with offset := r.offset + n })
      else
        (.error (.bufferOverrun n r.offset r.buffer.length), r) := by
  unfold BinaryReader.remaining
  by_cases hc : r.offset + n ≤ r.buffer.length
  · rw [if_pos (by omega)]
    unfold BinaryReader.read_fixed_array
    rw [check_bounds_ok r n hc]
  · rw [if_neg (by omega)]
    unfold BinaryReader.read_fixed_array
    rw [check_bounds_fail r n (by omega)]

/-- Behaviour of `read_u8` in both cases. -/
theorem read_u8_eq (r : BinaryReader) (h : r.offset ≤ r.buffer.length) :
    r.read_u8 =
      if 1 ≤ r.remaining then
        (.ok (r.buffer.getD r.offset 0), { r with offset := r.offset + 1 })
      else
        (.error (.bufferOverrun 1 r.offset r.buffer.length), r) := by
  unfold BinaryReader.remaining
  by_cases hc : r.offset + 1 ≤ r.buffer.length
  · rw [if_pos (by omega)]
    unfold BinaryReader.read_u8
    rw [check_bounds_ok r 1 hc]
  · rw [if_neg (by omega)]
    unfold BinaryReader.read_u8
    rw [check_bounds_fail r 1 (by omega)]

/-- Behaviour of `read_u16` in both cases. -/
theorem read_u16_eq (r : BinaryReader) (h : r.offset ≤ r.buffer.length) :
    r.read_u16 =
      if 2 ≤ r.remaining then
        (.ok (leNat ((r.buffer.drop r.offset).take 2)), { r with offset := r.offset + 2 })
      else
        (.error (.bufferOverrun 2 r.offset r.buffer.length), r) := by
  unfold BinaryReader.remaining
  by_cases hc : r.offset + 2 ≤ r.buffer.length
  · rw [if_pos (by omega)]
    unfold BinaryReader.read_u16
    rw [check_bounds_ok r 2 hc]
  · rw [if_neg (by omega)]
    unfold BinaryReader.read_u16
    rw [check_bounds_fail r 2 (by omega)]

/-- Behaviour of `read_u64` in both cases. -/
theorem read_u64_eq (r : BinaryReader) (h : r.offset ≤ r.buffer.length) :
    r.read_u64 =
      if 8 ≤ r.remaining then
        (.ok (leNat ((r.buffer.drop r.offset).take 8)), { r with offset := r.offset + 8 })
      else
        (.error (.bufferOverrun 8 r.offset r.buffer.length), r) := by
  unfold BinaryReader.remaining
  by_cases hc : r.offset + 8 ≤ r.buffer.length
  · rw [if_pos (by omega)]
    unfold BinaryReader.read_u64
    rw [check_bounds_ok r 8 hc]
  · rw [if_neg (by omega)]
    unfold BinaryReader.read_u64
    rw [check_bounds_fail r 8 (by omega)]

/-- Behaviour of `read_i64` in both cases. -/
theorem read_i64_eq (r : BinaryReader) (h : r.offset ≤ r.buffer.length) :
    r.read_i64 =
      if 8 ≤ r.remaining then
        (.ok
          (if leNat ((r.buffer.drop r.offset).take 8) < 2 ^ 63 then
            ((leNat ((r.buffer.drop r.offset).take 8)) : Int)
          else ((leNat ((r.buffer.drop r.offset).take 8)) : Int) - 2 ^ 64),
          { r with offset := r.offset + 8 })
      else
        (.error (.bufferOverrun 8 r.offset r.buffer.length), r) := by
  unfold BinaryReader.remaining
  by_cases hc : r.offset + 8 ≤ r.buffer.length
  · rw [if_pos (by omega)]
    unfold BinaryReader.read_i64
    rw [check_bounds_ok r 8 hc]
  · rw [if_neg (by omega)]
    unfold BinaryReader.read_i64
    rw [check_bounds_fail r 8 (by omega)]

/-- Behaviour of `read_pubkey` in both cases. -/
theorem read_pubkey_eq (r : BinaryReader) (h : r.offset ≤ r.buffer.length) :
    r.read_pubkey =
      if 32 ≤ r.remaining then
        (.ok (b58Encode ((r.buffer.drop r.offset).take 32)),
          { r with offset := r.offset + 32 })
      else
        (.error (.bufferOverrun 32 r.offset r.buffer.length), r) := by
  unfold BinaryReader.read_pubkey
  rw [read_fixed_array_eq r 32 h]
  by_cases hc : 32 ≤ r.remaining
  · rw [if_pos hc, if_pos hc]
  · rw [if_neg hc, if_neg hc]

/-- Behaviour of `read_string` in all four cases: prefix overrun, body
overrun (the cursor already past the prefix), UTF-8 failure (the cursor
already past the body) and success. -/
theorem read_string_eq (r : BinaryReader) :
    r.read_string =
      (if r.offset + 4 ≤ r.buffer.length then
        (fun L =>
          if r.offset + 4 + L ≤ r.buffer.length then
            (fun bytes =>
              if utf8Valid bytes then
                (Except.ok bytes, { r with offset := r.offset + 4 + L })
              else
                (Except.error DexErr.utf8, { r with offset := r.offset + 4 + L }))
              ((r.buffer.drop (r.offset + 4)).take L)
          else
            (Except.error (DexErr.bufferOverrun L (r.offset + 4) r.buffer.length),
              { r with offset := r.offset + 4 }))
          (leNat ((r.buffer.drop r.offset).take 4))
      else
        (Except.error (DexErr.bufferOverrun 4 r.offset r.buffer.length), r)) := by
  unfold BinaryReader.read_string
  by_cases hc : r.offset + 4 ≤ r.buffer.length
  · rw [if_pos hc, check_bounds_ok r 4 hc]
    dsimp only
    generalize leNat ((r.buffer.drop r.offset).take 4) = L
    by_cases hc2 : r.offset + 4 + L ≤ r.buffer.length
    · rw [if_pos hc2]
      have hok : BinaryReader.check_bounds { r with offset := r.offset + 4 } L = .ok () :=
        check_bounds_ok _ _ (by dsimp only; omega)
      rw [hok]
    · rw [if_neg hc2]
      have hfail : BinaryReader.check_bounds { r with offset := r.offset + 4 } L =
          .error (.bufferOverrun L (r.offset + 4) r.buffer.length) :=
        check_bounds_fail _ _ (by dsimp only; omega)
      rw [hfail]
  · rw [if_neg hc, check_bounds_fail r 4 (by omega)]

/-- The bounded-read property of one reader state: every operation fails
exactly when fewer bytes than requested remain past the cursor, advances
the cursor by exactly the requested count on success, never leaves the
cursor past the buffer end, and `read_string` additionally fails with a
`utf8` error (not a panic) on invalid UTF-8. -/
def BinaryReaderSpec (r : BinaryReader) (n : Nat) : Prop :=
  (r.read_fixed_array n =
    if n ≤ r.remaining then
      (.ok ((r.buffer.drop r.offset).take n), { r with offset := r.offset + n })
    else (.error (.bufferOverrun n r.offset r.buffer.length), r)) ∧
  ((r.read_fixed_array n).2.offset ≤ r.buffer.length) ∧
  (r.read_u8 =
    if 1 ≤ r.remaining then
      (.ok (r.buffer.getD r.offset 0), { r with offset := r.offset + 1 })
    else (.error (.bufferOverrun 1 r.offset r.buffer.length), r)) ∧
  (r.read_u8.2.offset ≤ r.buffer.length) ∧
  (r.read_u16 =
    if 2 ≤ r.remaining then
      (.ok (leNat ((r.buffer.drop r.offset).take 2)), { r with offset := r.offset + 2 })
    else (.error (.bufferOverrun 2 r.offset r.buffer.length), r)) ∧
  (r.read_u16.2.offset ≤ r.buffer.length) ∧
  (r.read_u64 =
    if 8 ≤ r.remaining then
      (.ok (leNat ((r.buffer.drop r.offset).take 8)), { r with offset := r.offset + 8 })
    else (.error (.bufferOverrun 8 r.offset r.buffer.length), r)) ∧
  (r.read_u64.2.offset ≤ r.buffer.length) ∧
  ((r.read_i64.1.isOk = true) ↔ 8 ≤ r.remaining) ∧
  (r.read_i64.2.offset = if 8 ≤ r.remaining then r.offset + 8 else r.offset) ∧
  (r.read_i64.2.offset ≤ r.buffer.length) ∧
  ((r.read_pubkey.1.isOk = true) ↔ 32 ≤ r.remaining) ∧
  (r.read_pubkey.2.offset = if 32 ≤ r.remaining then r.offset + 32 else r.offset) ∧
  (r.read_pubkey.2.offset ≤ r.buffer.length) ∧
  ((r.read_string.1.isOk = true) ↔
    (4 ≤ r.remaining ∧
      4 + leNat ((r.buffer.drop r.offset).take 4) ≤ r.remaining ∧
      utf8Valid
        ((r.buffer.drop (r.offset + 4)).take
          (leNat ((r.buffer.drop r.offset).take 4))) = true)) ∧
  (¬ 4 ≤ r.remaining →
    r.read_string = (.error (.bufferOverrun 4 r.offset r.buffer.length), r)) ∧
  (4 ≤ r.remaining →
    4 + leNat ((r.buffer.drop r.offset).take 4) ≤ r.remaining →
    utf8Valid
        ((r.buffer.drop (r.offset + 4)).take
          (leNat ((r.buffer.drop r.offset).take 4))) = true →
    r.read_string =
      (.ok
        ((r.buffer.drop (r.offset + 4)).take (leNat ((r.buffer.drop r.offset).take 4))),
        { r with offset := r.offset + 4 + leNat ((r.buffer.drop r.offset).take 4) })) ∧
  (4 ≤ r.remaining →
    4 + leNat ((r.buffer.drop r.offset).take 4) ≤ r.remaining →
    utf8Valid
        ((r.buffer.drop (r.offset + 4)).take
          (leNat ((r.buffer.drop r.offset).take 4))) = false →
    r.read_string =
      (.error .utf8,
        { r with offset := r.offset + 4 + leNat ((r.buffer.drop r.offset).take 4) })) ∧
  (r.read_string.2.offset ≤ r.buffer.length)

/-- C6: every `BinaryReader` operation requesting `n` bytes errors exactly
when fewer than `n` bytes remain past the cursor, advances the cursor by
exactly `n` on success and never past the buffer end, and invalid UTF-8 in
`read_string` yields an error rather than a panic; no byte outside the
buffer is accessed (reads return slices of the buffer delimited by the
checked bounds). -/
theorem binary_reader_reads_are_bounds_checked (r : BinaryReader) (n : Nat)
    (h : r.offset ≤ r.buffer.length) : BinaryReaderSpec r n := by
  have hfix := read_fixed_array_eq r n h
  have hu8 := read_u8_eq r h
  have hu16 := read_u16_eq r h
  have hu64 := read_u64_eq r h
  have hi64 := read_i64_eq r h
  have hpk := read_pubkey_eq r h
  have hstr := read_string_eq r
  have hrem : r.remaining = r.buffer.length - r.offset := rfl
  refine ⟨hfix, ?_, hu8, ?_, hu16, ?_, hu64, ?_, ?_, ?_, ?_, ?_, ?_, ?_, ?_, ?_, ?_, ?_, ?_⟩
  · rw [hfix]
    split
    · next hcond => dsimp only; omega
    · exact h
  · rw [hu8]
    split
    · next hcond => dsimp only; omega
    · exact h
  · rw [hu16]
    split
    · next hcond => dsimp only; omega
    · exact h
  · rw [hu64]
    split
    · next hcond => dsimp only; omega
    · exact h
  · rw [hi64]
    split
    · next hcond => exact iff_of_true rfl hcond
    · next hcond => exact iff_of_false (fun hc => Bool.false_ne_true hc) hcond
  · rw [hi64]
    split
    · rfl
    · rfl
  · rw [hi64]
    split
    · next hcond => dsimp only; omega
    · exact h
  · rw [hpk]
    split
    · next hcond => exact iff_of_true rfl hcond
    · next hcond => exact iff_of_false (fun hc => Bool.false_ne_true hc) hcond
  · rw [hpk]
    split
    · rfl
    · rfl
  · rw [hpk]
    split
    · next hcond => dsimp only; omega
    · exact h
  · rw [hstr]
    by_cases h4 : r.offset + 4 ≤ r.buffer.length
    · rw [if_pos h4]
      dsimp only
      by_cases hb : r.offset + 4 + leNat ((r.buffer.drop r.offset).take 4) ≤
          r.buffer.length
      · rw [if_pos hb]
        by_cases hv : utf8Valid
            ((r.buffer.drop (r.offset + 4)).take
              (leNat ((r.buffer.drop r.offset).take 4))) = true
        · rw [if_pos hv]
          exact iff_of_true rfl ⟨by omega, by omega, hv⟩
        · rw [if_neg hv]
          exact iff_of_false (fun hc => Bool.false_ne_true hc)
            (fun hcontr => absurd hcontr.2.2 hv)
      · rw [if_neg hb]
        exact iff_of_false (fun hc => Bool.false_ne_true hc) (fun hcontr => by omega)
    · rw [if_neg h4]
      exact iff_of_false (fun hc => Bool.false_ne_true hc) (fun hcontr => by omega)
  · intro h4
    rw [hstr, if_neg (by omega)]
  · intro h4 hb hv
    rw [hstr, if_pos (by omega)]
    dsimp only
    rw [if_pos (by omega), if_pos hv]
  · intro h4 hb hv
    rw [hstr, if_pos (by omega)]
    dsimp only
    rw [if_pos (by omega),
      if_neg (show ¬ _ = true by rw [hv]; exact Bool.false_ne_true)]
  · rw [hstr]
    by_cases h4 : r.offset + 4 ≤ r.buffer.length
    · rw [if_pos h4]
      dsimp only
      by_cases hb : r.offset + 4 + leNat ((r.buffer.drop r.offset).take 4) ≤
          r.buffer.length
      · rw [if_pos hb]
        by_cases hv : utf8Valid
            ((r.buffer.drop (r.offset + 4)).take
              (leNat ((r.buffer.drop r.offset).take 4))) = true
        · rw [if_pos hv]
          dsimp only
          omega
        · rw [if_neg hv]
          dsimp only
          omega
      · rw [if_neg hb]
        dsimp only
        omega
    · rw [if_neg h4]
      exact h

/-- Witness for C6 at a concrete two-byte reader. -/
theorem binary_reader_reads_are_bounds_checked_witness :
    BinaryReaderSpec ⟨[72, 105], 0⟩ 1 :=
  binary_reader_reads_are_bounds_checked ⟨[72, 105], 0⟩ 1 (by decide)

/-- C10: `read_string` is not atomic on failure.  When the four-byte length
prefix is readable but declares more bytes than remain, the error is
returned with the cursor already advanced past the prefix; when UTF-8
validation fails, the cursor has advanced past the prefix and the full
string body. -/
theorem read_string_failure_moves_cursor :
    (∀ r : BinaryReader, 4 ≤ r.remaining →
      r.remaining < 4 + leNat ((r.buffer.drop r.offset).take 4) →
      r.read_string.1.isOk = false ∧ r.read_string.2.offset = r.offset + 4) ∧
    (∀ r : BinaryReader, 4 ≤ r.remaining →
      4 + leNat ((r.buffer.drop r.offset).take 4) ≤ r.remaining →
      utf8Valid
          ((r.buffer.drop (r.offset + 4)).take
            (leNat ((r.buffer.drop r.offset).take 4))) = false →
      r.read_string.1 = .error DexErr.utf8 ∧
      r.read_string.2.offset =
        r.offset + 4 + leNat ((r.buffer.drop r.offset).take 4)) := by
  have hrem : ∀ r : BinaryReader, r.remaining = r.buffer.length - r.offset :=
    fun r => rfl
  constructor
  · intro r h4 hover
    rw [hrem] at h4 hover
    rw [read_string_eq r, if_pos (by omega)]
    dsimp only
    rw [if_neg (by omega)]
    exact ⟨rfl, rfl⟩
  · intro r h4 hfit hv
    rw [hrem] at h4 hfit
    rw [read_string_eq r, if_pos (by omega)]
    dsimp only
    rw [if_pos (by omega),
      if_neg (show ¬ _ = true by rw [hv]; exact Bool.false_ne_true)]
    exact ⟨rfl, rfl⟩

/-- Witness for C10: a buffer declaring five body bytes with none present
leaves the cursor at 4; a valid one-byte body that is not UTF-8 leaves the
cursor at 5. -/
theorem read_string_failure_moves_cursor_witness :
    ((⟨[5, 0, 0, 0], 0⟩ : BinaryReader).read_string.1.isOk = false ∧
      (⟨[5, 0, 0, 0], 0⟩ : BinaryReader).read_string.2.offset = 4) ∧
    ((⟨[1, 0, 0, 0, 255], 0⟩ : BinaryReader).read_string.1 = .error DexErr.utf8 ∧
      (⟨[1, 0, 0, 0, 255], 0⟩ : BinaryReader).read_string.2.offset = 5) :=
  ⟨read_string_failure_moves_cursor.1 ⟨[5, 0, 0, 0], 0⟩ (by decide) (by decide),
    read_string_failure_moves_cursor.2 ⟨[1, 0, 0, 0, 255], 0⟩ (by decide) (by decide)
      (by decide)⟩

/-- C7: `decode_instruction_data` never fails, tries base58 first, then
base64, then falls back to the raw UTF-8 bytes of the string, and the
empty string yields an empty buffer. -/
theorem decode_instruction_data_total_and_ordered :
    (∀ s : String, decode_instruction_data s =
      .ok
        (match b58Decode s with
        | some v => v
        | none =>
          match b64Decode s with
          | some v => v
          | none => utf8Bytes s)) ∧
    decode_instruction_data "" = .ok [] := by
  constructor
  · intro s
    by_cases hs : s = ""
    · subst hs
      rfl
    · unfold decode_instruction_data
      rw [if_neg hs]
      cases h58 : b58Decode s with
      | some v => rfl
      | none =>
        cases h64 : b64Decode s with
        | some v => rfl
        | none => rfl
  · rfl

/-- C9: every event list returned by the Pumpfun and Pumpswap event
parsers is pairwise non-decreasing in the numeric `(outer, inner)` order
of its idx values. -/
theorem parse_instructions_sorted_by_idx :
    (∀ (A : AdapterView) (instructions : List ClassifiedInstruction)
        (events : List MemeEvent),
      PumpfunEvents.parse_instructions A instructions = .ok events →
      events.Pairwise (fun a b => idxNumLe a.idx b.idx)) ∧
    (∀ (A : AdapterView) (instructions : List ClassifiedInstruction)
        (events : List PumpswapEvent),
      PumpswapEvents.parse_instructions A instructions = .ok events →
      events.Pairwise (fun a b => idxNumLe a.idx b.idx)) := by
  constructor
  · intro A instructions events h
    unfold PumpfunEvents.parse_instructions at h
    cases hgo : pumpfunParseGo A instructions instructions with
    | error e =>
      rw [hgo] at h
      exact Except.noConfusion h
    | ok evs =>
      rw [hgo] at h
      have h2 : (Except.ok (sort_by_idx (fun ev => ev.idx) evs) : Except DexErr _) =
          .ok events := h
      cases h2
      exact sort_by_idx_sorted (fun ev => ev.idx) evs
  · intro A instructions events h
    unfold PumpswapEvents.parse_instructions at h
    cases hgo : pumpswapParseGo A instructions with
    | error e =>
      rw [hgo] at h
      exact Except.noConfusion h
    | ok evs =>
      rw [hgo] at h
      have h2 : (Except.ok (sort_by_idx (fun ev => ev.idx) evs) : Except DexErr _) =
          .ok events := h
      cases h2
      exact sort_by_idx_sorted (fun ev => ev.idx) evs

/-- Adapter view for the C9 witness transaction. -/
def c9Adapter : AdapterView :=
  { signature := "sig", slot := 7, block_time := 11, signers := ["payer"] }

/-- A well-formed Pumpfun Trade event payload (105 bytes): zero mint, one
SOL in, 500000 tokens out, `is_buy = 1`, zero user, timestamp and
reserves. -/
def c9TradePayload : List Nat :=
  List.replicate 32 0 ++ leBytes 8 1000000000 ++ leBytes 8 500000 ++ [1] ++
    List.replicate 32 0 ++ List.replicate 8 0 ++ List.replicate 8 0 ++
    List.replicate 8 0

/-- A classified Pumpfun instruction carrying the Trade payload, base64
encoded, at the given outer index. -/
def c9TradeIx (outer : Nat) : ClassifiedInstruction :=
  { program_id := PUMP_FUN_PROGRAM_ID
    outer_index := outer
    inner_index := none
    data :=
      { program_id := PUMP_FUN_PROGRAM_ID
        accounts := []
        data := b64Encode (PUMPFUN_TRADE_DISC ++ c9TradePayload) } }

/-- The events decoded from two trade instructions listed out of idx
order. -/
def c9MemeEvents : List MemeEvent :=
  match PumpfunEvents.parse_instructions c9Adapter [c9TradeIx 1, c9TradeIx 0] with
  | .ok evs => evs
  | .error _ => []

/-- A well-formed Pumpswap Buy event payload (304 bytes of zeros). -/
def c9SwapPayload : List Nat := List.replicate 304 0

/-- A classified Pumpswap instruction carrying the Buy payload. -/
def c9SwapIx (outer : Nat) : ClassifiedInstruction :=
  { program_id := PUMP_SWAP_PROGRAM_ID
    outer_index := outer
    inner_index := none
    data :=
      { program_id := PUMP_SWAP_PROGRAM_ID
        accounts := []
        data := b64Encode (PUMPSWAP_BUY_DISC ++ c9SwapPayload) } }

/-- The events decoded from two buy instructions listed out of idx order. -/
def c9SwapEvents : List PumpswapEvent :=
  match PumpswapEvents.parse_instructions c9Adapter [c9SwapIx 1, c9SwapIx 0] with
  | .ok evs => evs
  | .error _ => []

set_option maxRecDepth 100000 in
/-- Witness for C9: on concrete two-instruction inputs given out of order,
both parsers return event lists sorted by the numeric idx order. -/
theorem parse_instructions_sorted_by_idx_witness :
    (PumpfunEvents.parse_instructions c9Adapter [c9TradeIx 1, c9TradeIx 0] =
      .ok c9MemeEvents) ∧
    c9MemeEvents.Pairwise (fun a b => idxNumLe a.idx b.idx) ∧
    c9MemeEvents.map (fun e => e.idx) = ["0-0", "1-0"] ∧
    (PumpswapEvents.parse_instructions c9Adapter [c9SwapIx 1, c9SwapIx 0] =
      .ok c9SwapEvents) ∧
    c9SwapEvents.Pairwise (fun a b => idxNumLe a.idx b.idx) ∧
    c9SwapEvents.map (fun e => e.idx) = ["0-0", "1-0"] :=
  ⟨rfl,
    parse_instructions_sorted_by_idx.1 c9Adapter [c9TradeIx 1, c9TradeIx 0]
      c9MemeEvents rfl,
    rfl,
    rfl,
    parse_instructions_sorted_by_idx.2 c9Adapter [c9SwapIx 1, c9SwapIx 0]
      c9SwapEvents rfl,
    rfl⟩

/-- Unfolding lemma for the reader monad's bind. -/
theorem bind_def {α β : Type} (m : BRM α) (f : α → BRM β) : m >>= f = brmBind m f := rfl

/-- C8: for every successfully decoded Pumpfun Trade event, when the
`is_buy` byte (payload offset 48) is 1, the input token is SOL with the
`sol_amount` field and 9 decimals and the output token is the event's mint
with the `token_amount` field and 6 decimals; the roles swap when `is_buy`
is not 1; and the event type is computed by `get_trade_type` (Buy when the
input mint is SOL, Sell when the output mint is SOL, Swap otherwise). -/
theorem decode_trade_event_buy_sell_mapping :
    ∀ (data : List Nat) (ev : MemeEvent), decode_trade_event data = .ok ev →
      ev.base_mint = b58Encode (data.take 32) ∧
      ev.quote_mint = SOL_MINT ∧
      ev.user = b58Encode ((data.drop 49).take 32) ∧
      (if data.getD 48 0 = 1 then
        ev.input_token =
          some (build_token_info SOL_MINT (leNat ((data.drop 32).take 8)) 9
            (some (b58Encode ((data.drop 49).take 32)))) ∧
        ev.output_token =
          some (build_token_info (b58Encode (data.take 32))
            (leNat ((data.drop 40).take 8)) 6
            (some (b58Encode ((data.drop 49).take 32)))) ∧
        ev.event_type = get_trade_type SOL_MINT (b58Encode (data.take 32))
      else
        ev.input_token =
          some (build_token_info (b58Encode (data.take 32))
            (leNat ((data.drop 40).take 8)) 6
            (some (b58Encode ((data.drop 49).take 32)))) ∧
        ev.output_token =
          some (build_token_info SOL_MINT (leNat ((data.drop 32).take 8)) 9
            (some (b58Encode ((data.drop 49).take 32)))) ∧
        ev.event_type = get_trade_type (b58Encode (data.take 32)) SOL_MINT) := by
  intro data ev h
  unfold decode_trade_event brmRun at h
  simp only [bind_def, brmBind] at h
  rw [read_pubkey_eq ⟨data, 0⟩ (Nat.zero_le _)] at h
  by_cases h1 : 32 ≤ (⟨data, 0⟩ : BinaryReader).remaining
  swap
  · rw [if_neg h1] at h
    exact Except.noConfusion h
  rw [if_pos h1] at h
  dsimp only at h
  simp only [show ((0 : Nat) + 32) = 32 from rfl] at h
  rw [read_u64_eq ⟨data, 32⟩ (by simp [BinaryReader.remaining] at h1 ⊢; omega)] at h
  by_cases h2 : 8 ≤ (⟨data, 32⟩ : BinaryReader).remaining
  swap
  · rw [if_neg h2] at h
    exact Except.noConfusion h
  rw [if_pos h2] at h
  dsimp only at h
  simp only [show ((32 : Nat) + 8) = 40 from rfl] at h
  rw [read_u64_eq ⟨data, 40⟩ (by simp [BinaryReader.remaining] at h2 ⊢; omega)] at h
  by_cases h3 : 8 ≤ (⟨data, 40⟩ : BinaryReader).remaining
  swap
  · rw [if_neg h3] at h
    exact Except.noConfusion h
  rw [if_pos h3] at h
  dsimp only at h
  simp only [show ((40 : Nat) + 8) = 48 from rfl] at h
  rw [read_u8_eq ⟨data, 48⟩ (by simp [BinaryReader.remaining] at h3 ⊢; omega)] at h
  by_cases h4 : 1 ≤ (⟨data, 48⟩ : BinaryReader).remaining
  swap
  · rw [if_neg h4] at h
    exact Except.noConfusion h
  rw [if_pos h4] at h
  dsimp only at h
  simp only [show ((48 : Nat) + 1) = 49 from rfl] at h
  rw [read_fixed_array_eq ⟨data, 49⟩ 32
    (by simp [BinaryReader.remaining] at h4 ⊢; omega)] at h
  by_cases h5 : 32 ≤ (⟨data, 49⟩ : BinaryReader).remaining
  swap
  · rw [if_neg h5] at h
    exact Except.noConfusion h
  rw [if_pos h5] at h
  dsimp only at h
  simp only [show ((49 : Nat) + 32) = 81 from rfl] at h
  rw [read_i64_eq ⟨data, 81⟩ (by simp [BinaryReader.remaining] at h5 ⊢; omega)] at h
  by_cases h6 : 8 ≤ (⟨data, 81⟩ : BinaryReader).remaining
  swap
  · rw [if_neg h6] at h
    exact Except.noConfusion h
  rw [if_pos h6] at h
  dsimp only at h
  simp only [show ((81 : Nat) + 8) = 89 from rfl] at h
  rw [read_u64_eq ⟨data, 89⟩ (by simp [BinaryReader.remaining] at h6 ⊢; omega)] at h
  by_cases h7 : 8 ≤ (⟨data, 89⟩ : BinaryReader).remaining
  swap
  · rw [if_neg h7] at h
    exact Except.noConfusion h
  rw [if_pos h7] at h
  dsimp only at h
  simp only [show ((89 : Nat) + 8) = 97 from rfl] at h
  rw [read_u64_eq ⟨data, 97⟩ (by simp [BinaryReader.remaining] at h7 ⊢; omega)] at h
  by_cases h8 : 8 ≤ (⟨data, 97⟩ : BinaryReader).remaining
  swap
  · rw [if_neg h8] at h
    exact Except.noConfusion h
  rw [if_pos h8] at h
  dsimp only at h
  simp only [show ((97 : Nat) + 8) = 105 from rfl] at h
  simp only [remainingM] at h
  by_cases h52 : 52 ≤ (⟨data, 105⟩ : BinaryReader).remaining
  swap
  · rw [if_neg h52] at h
    unfold brmPure at h
    simp only [brmBind] at h
    injection h with h9
    subst h9
    by_cases hbuy : data[48]?.getD 0 = 1 <;>
      simp [hbuy, List.drop_zero]
  · rw [if_pos h52] at h
    simp only [brmBind, brmPure] at h
    repeat' split at h
    all_goals
      first
      | exact Except.noConfusion h
      | (injection h with h9
         subst h9
         simp_all [List.drop_zero])

/-- The Buy scenario payload for the C8 witness: zero mint,
`sol_amount = 1000000000`, `token_amount = 500000`, `is_buy = 1`, zero
user, timestamp and reserves. -/
def c8TradePayload : List Nat :=
  List.replicate 32 0 ++ leBytes 8 1000000000 ++ leBytes 8 500000 ++ [1] ++
    List.replicate 32 0 ++ List.replicate 8 0 ++ List.replicate 8 0 ++
    List.replicate 8 0

/-- An all-empty meme event, used only as a fallback for total matches. -/
def memeEventZero : MemeEvent :=
  { event_type := TradeType.Swap
    timestamp := 0
    idx := ""
    slot := 0
    signature := ""
    user := ""
    base_mint := ""
    quote_mint := ""
    input_token := none
    output_token := none
    name := none
    symbol := none
    uri := none
    decimals := none
    total_supply := none
    fee := none
    protocol_fee := none
    platform_fee := none
    share_fee := none
    creator_fee := none
    protocol := none
    platform_config := none
    creator := none
    bonding_curve := none
    pool := none
    pool_dex := none
    pool_a_reserve := none
    pool_b_reserve := none
    pool_fee_rate := none }

/-- The event decoded from the C8 witness payload. -/
def c8TradeEvent : MemeEvent :=
  match decode_trade_event c8TradePayload with
  | .ok e => e
  | .error _ => memeEventZero

set_option maxRecDepth 100000 in
/-- Witness for C8 at the Buy scenario payload. -/
theorem decode_trade_event_buy_sell_mapping_witness :
    c8TradeEvent.base_mint = b58Encode (c8TradePayload.take 32) ∧
    c8TradeEvent.quote_mint = SOL_MINT ∧
    c8TradeEvent.user = b58Encode ((c8TradePayload.drop 49).take 32) ∧
    (if c8TradePayload.getD 48 0 = 1 then
      c8TradeEvent.input_token =
        some (build_token_info SOL_MINT (leNat ((c8TradePayload.drop 32).take 8)) 9
          (some (b58Encode ((c8TradePayload.drop 49).take 32)))) ∧
      c8TradeEvent.output_token =
        some (build_token_info (b58Encode (c8TradePayload.take 32))
          (leNat ((c8TradePayload.drop 40).take 8)) 6
          (some (b58Encode ((c8TradePayload.drop 49).take 32)))) ∧
      c8TradeEvent.event_type =
        get_trade_type SOL_MINT (b58Encode (c8TradePayload.take 32))
    else
      c8TradeEvent.input_token =
        some (build_token_info (b58Encode (c8TradePayload.take 32))
          (leNat ((c8TradePayload.drop 40).take 8)) 6
          (some (b58Encode ((c8TradePayload.drop 49).take 32)))) ∧
      c8TradeEvent.output_token =
        some (build_token_info SOL_MINT (leNat ((c8TradePayload.drop 32).take 8)) 9
          (some (b58Encode ((c8TradePayload.drop 49).take 32)))) ∧
      c8TradeEvent.event_type =
        get_trade_type (b58Encode (c8TradePayload.take 32)) SOL_MINT) :=
  decode_trade_event_buy_sell_mapping c8TradePayload c8TradeEvent rfl

/-- If any instruction of the list fails to decode, the Pumpfun event loop
returns an error. -/
theorem pumpfunParseGo_errs (A : AdapterView) (all : List ClassifiedInstruction) :
    ∀ (l : List ClassifiedInstruction) (c : ClassifiedInstruction), c ∈ l →
      (pumpfunProcessOne A all c).isOk = false →
      (pumpfunParseGo A all l).isOk = false := by
  intro l
  induction l with
  | nil =>
    intro c hc _
    exact absurd hc (List.not_mem_nil c)
  | cons head tail ih =>
    intro c hc herr
    unfold pumpfunParseGo
    rcases List.mem_cons.mp hc with heq | htail
    · subst heq
      cases hh : pumpfunProcessOne A all c with
      | error e => rfl
      | ok v =>
        rw [hh] at herr
        exact Bool.noConfusion herr
    · cases hh : pumpfunProcessOne A all head with
      | error e => rfl
      | ok v =>
        have hgo := ih c htail herr
        cases hgo2 : pumpfunParseGo A all tail with
        | error e2 => rfl
        | ok evs =>
          rw [hgo2] at hgo
          exact Bool.noConfusion hgo

/-- If any instruction of the list fails to decode, the Pumpswap event loop
returns an error. -/
theorem pumpswapParseGo_errs (A : AdapterView) :
    ∀ (l : List ClassifiedInstruction) (c : ClassifiedInstruction), c ∈ l →
      (pumpswapProcessOne A c).isOk = false →
      (pumpswapParseGo A l).isOk = false := by
  intro l
  induction l with
  | nil =>
    intro c hc _
    exact absurd hc (List.not_mem_nil c)
  | cons head tail ih =>
    intro c hc herr
    unfold pumpswapParseGo
    rcases List.mem_cons.mp hc with heq | htail
    · subst heq
      cases hh : pumpswapProcessOne A c with
      | error e => rfl
      | ok v =>
        rw [hh] at herr
        exact Bool.noConfusion herr
    · cases hh : pumpswapProcessOne A head with
      | error e => rfl
      | ok v =>
        have hgo := ih c htail herr
        cases hgo2 : pumpswapParseGo A tail with
        | error e2 => rfl
        | ok evs =>
          rw [hgo2] at hgo
          exact Bool.noConfusion hgo

/-- C4 (amended): a decoding error (such as a `BufferOverrun`) while
reading any one instruction's event payload aborts the whole
`parse_instructions` call of both the Pumpfun and the Pumpswap event
parsers: the call returns an error, so no events — not even those of the
other instructions — are returned (the calling parser then logs the error
and yields an empty list). -/
theorem parse_instructions_abort_on_decode_error :
    (∀ (A : AdapterView) (instructions : List ClassifiedInstruction)
        (c : ClassifiedInstruction), c ∈ instructions →
      (pumpfunProcessOne A instructions c).isOk = false →
      (PumpfunEvents.parse_instructions A instructions).isOk = false) ∧
    (∀ (A : AdapterView) (instructions : List ClassifiedInstruction)
        (c : ClassifiedInstruction), c ∈ instructions →
      (pumpswapProcessOne A c).isOk = false →
      (PumpswapEvents.parse_instructions A instructions).isOk = false) := by
  constructor
  · intro A instructions c hc herr
    have hgo := pumpfunParseGo_errs A instructions instructions c hc herr
    unfold PumpfunEvents.parse_instructions
    cases hgo2 : pumpfunParseGo A instructions instructions with
    | error e => rfl
    | ok evs =>
      rw [hgo2] at hgo
      exact Bool.noConfusion hgo
  · intro A instructions c hc herr
    have hgo := pumpswapParseGo_errs A instructions c hc herr
    unfold PumpswapEvents.parse_instructions
    cases hgo2 : pumpswapParseGo A instructions with
    | error e => rfl
    | ok evs =>
      rw [hgo2] at hgo
      exact Bool.noConfusion hgo

/-- Adapter view for the C4 counterexample transaction. -/
def c4Adapter : AdapterView :=
  { signature := "sig", slot := 3, block_time := 5, signers := ["payer"] }

/-- A Pumpfun instruction whose data is the Trade discriminator with an
empty payload, so decoding the event overruns the buffer. -/
def c4BadIx : ClassifiedInstruction :=
  { program_id := PUMP_FUN_PROGRAM_ID
    outer_index := 0
    inner_index := none
    data :=
      { program_id := PUMP_FUN_PROGRAM_ID
        accounts := []
        data := b64Encode PUMPFUN_TRADE_DISC } }

/-- A Pumpfun instruction carrying a complete, well-formed Trade payload. -/
def c4GoodIx : ClassifiedInstruction :=
  { program_id := PUMP_FUN_PROGRAM_ID
    outer_index := 1
    inner_index := none
    data :=
      { program_id := PUMP_FUN_PROGRAM_ID
        accounts := []
        data :=
          b64Encode
            (PUMPFUN_TRADE_DISC ++
              (List.replicate 32 0 ++ leBytes 8 1000000000 ++ leBytes 8 500000 ++
                [1] ++ List.replicate 32 0 ++ List.replicate 8 0 ++
                List.replicate 8 0 ++ List.replicate 8 0)) } }

/-- The events decoded from the well-formed instruction alone. -/
def c4GoodEvents : List MemeEvent :=
  match PumpfunEvents.parse_instructions c4Adapter [c4GoodIx] with
  | .ok evs => evs
  | .error _ => []

/-- A Pumpswap instruction whose data is the Buy discriminator with an
empty payload. -/
def c4SwapBadIx : ClassifiedInstruction :=
  { program_id := PUMP_SWAP_PROGRAM_ID
    outer_index := 0
    inner_index := none
    data :=
      { program_id := PUMP_SWAP_PROGRAM_ID
        accounts := []
        data := b64Encode PUMPSWAP_BUY_DISC } }

/-- A Pumpswap instruction carrying a complete Buy payload. -/
def c4SwapGoodIx : ClassifiedInstruction :=
  { program_id := PUMP_SWAP_PROGRAM_ID
    outer_index := 1
    inner_index := none
    data :=
      { program_id := PUMP_SWAP_PROGRAM_ID
        accounts := []
        data := b64Encode (PUMPSWAP_BUY_DISC ++ List.replicate 304 0) } }

set_option maxRecDepth 100000 in
/-- Counterexample for C4: with a buffer overrun in the first instruction,
`parse_instructions` returns an error and no events at all, although the
second instruction alone decodes to one event. -/
theorem buffer_overrun_drops_other_instructions_events :
    (PumpfunEvents.parse_instructions c4Adapter [c4BadIx, c4GoodIx]).isOk = false ∧
    PumpfunEvents.parse_instructions c4Adapter [c4GoodIx] = .ok c4GoodEvents ∧
    c4GoodEvents.length = 1 :=
  ⟨rfl, rfl, rfl⟩

set_option maxRecDepth 100000 in
/-- Witness for C4 (amended) at the counterexample instruction lists, for
both the Pumpfun and the Pumpswap event parsers. -/
theorem parse_instructions_abort_on_decode_error_witness :
    (PumpfunEvents.parse_instructions c4Adapter [c4BadIx, c4GoodIx]).isOk = false ∧
    (PumpswapEvents.parse_instructions c4Adapter
      [c4SwapBadIx, c4SwapGoodIx]).isOk = false :=
  ⟨parse_instructions_abort_on_decode_error.1 c4Adapter [c4BadIx, c4GoodIx] c4BadIx
      (List.mem_cons_self c4BadIx [c4GoodIx]) rfl,
    parse_instructions_abort_on_decode_error.2 c4Adapter [c4SwapBadIx, c4SwapGoodIx]
      c4SwapBadIx (List.mem_cons_self c4SwapBadIx [c4SwapGoodIx]) rfl⟩

/-- The spec's Pumpswap Sell scenario: protocol fee 100, coin-creator fee
50, all other fields inert. -/
def c1Sell : PumpswapSellEvent :=
  { timestamp := 0
    base_amount_in := 0
    min_quote_amount_out := 0
    user_base_token_reserves := 0
    user_quote_token_reserves := 0
    pool_base_token_reserves := 0
    pool_quote_token_reserves := 0
    quote_amount_out := 0
    lp_fee_basis_points := 0
    lp_fee := 0
    protocol_fee_basis_points := 0
    protocol_fee := 100
    quote_amount_out_without_lp_fee := 0
    user_quote_amount_out := 0
    pool := "pool"
    user := "user"
    user_base_token_account := "uba"
    user_quote_token_account := "uqa"
    protocol_fee_recipient := "pfr"
    protocol_fee_recipient_token_account := "pfrta"
    coin_creator := "cc"
    coin_creator_fee_basis_points := 0
    coin_creator_fee := 50 }

/-- The decoded event wrapper around `c1Sell`. -/
def c1Event : PumpswapEvent :=
  { event_type := PumpswapEventType.Sell
    data := PumpswapEventData.Sell c1Sell
    slot := 1
    timestamp := 2
    signature := "sig"
    idx := "0-0"
    signer := some ["payer"] }

/-- An empty dex info for the C1 evaluation. -/
def c1Dex : DexInfo := { program_id := none, amm := none, route := none }

/-- The trade built by `build_pumpswap_sell_trade` from the scenario. -/
def c1Trade : TradeInfo :=
  build_pumpswap_sell_trade c1Event c1Sell ("mintB", 6) (SOL_MINT, 9) (SOL_MINT, 9) c1Dex

/-- C1: evaluated at the spec's Sell scenario (`protocol_fee = 100`,
`coin_creator_fee = 50`), the assembled trade's summary `fee.amount_raw`
is `"100"` — the protocol fee alone — while the `fees[]` entries are the
protocol (100) and coinCreator (50) entries whose sum is 150; so
`fee.amount_raw` is not the decimal string of
`protocol_fee + coin_creator_fee`. -/
theorem pumpswap_sell_fee_amount_raw_is_protocol_fee_only :
    c1Trade.fee.map (fun f => f.amount_raw) = some "100" ∧
    c1Trade.fees.map (fun f => (f.amount_raw, f.fee_type)) =
      [("100", some "protocol"), ("50", some "coinCreator")] ∧
    toString (c1Sell.protocol_fee + c1Sell.coin_creator_fee) = "150" ∧
    (("100" : String) == "150") = false :=
  ⟨rfl, rfl, rfl, rfl⟩

/-- The C2 transaction: two static message keys given in the order
`["b", "a"]`, nothing else. -/
def c2Tx : SolanaTransaction :=
  { slot := 1
    signature := "sig"
    block_time := none
    message :=
      { static_keys := ["b", "a"]
        loaded_writable := []
        loaded_readonly := []
        num_required_signatures := some 1 }
    instructions := []
    inner_instructions := []
    meta := { pre_balances := none, post_balances := none }
    pre_token_balances := none
    post_token_balances := none }

/-- C2: evaluated at a transaction whose static message keys are
`["b", "a"]`, the adapter's account-key list is the *sorted* list
`["a", "b"]`, so `get_account_key 0` returns `"a"` instead of the account
at Solana index 0, `"b"`: the extracted list does not preserve the
original Solana ordering. -/
theorem account_keys_are_sorted_not_solana_order :
    c2Tx.message.static_keys = ["b", "a"] ∧
    extract_account_keys c2Tx = ["a", "b"] ∧
    get_account_key c2Tx 0 = "a" ∧
    ((get_account_key c2Tx 0) == c2Tx.message.static_keys.getD 0 "") = false := by
  refine ⟨rfl, ?_, ?_, ?_⟩ <;> decide

/-- The C3 transaction: one token account present only in the pre
token balances, with raw amount 5; the post token balances are present
but empty. -/
def c3Tx : SolanaTransaction :=
  { slot := 1
    signature := "sig"
    block_time := none
    message :=
      { static_keys := []
        loaded_writable := []
        loaded_readonly := []
        num_required_signatures := some 1 }
    instructions := []
    inner_instructions := []
    meta := { pre_balances := none, post_balances := none }
    pre_token_balances :=
      some
        [{ account := "acct"
           mint := "m"
           owner := some "own"
           ui_token_amount := { amount := "5", ui_amount := some 5, decimals := 0 } }]
    post_token_balances := some [] }

/-- C3: evaluated at a transaction whose token account appears only in the
pre balances with raw amount 5, the returned map keeps the entry with
`post = "0"` but `change = "0"` — not `-5` — and does not prune this
zero-change entry. -/
theorem token_changes_pre_only_entry_has_zero_change :
    ((alGet ((alGet (get_account_token_balance_changes c3Tx false) "acct").getD [])
        "m").map
      (fun ch => (ch.pre.amount, ch.post.amount, ch.change.amount))) =
      some ("5", "0", "0") ∧
    (get_account_token_balance_changes c3Tx false).length = 1 ∧
    (("0" : String) == "-5") = false :=
  ⟨rfl, rfl, rfl⟩

/-- C5 (amended): the multiset of meme events emitted by
`SimpleMemeParser::process_events` is determined by the transfer map's
contents, but their sequence follows the map's value iteration order: two
iteration orders of the same entries yield permutation-equal, not
necessarily equal, event lists. -/
theorem process_events_perm_invariant_under_iteration_order :
    ∀ (signature : String) (m1 m2 : List (String × List SimpleTransferData)),
      m1.Perm m2 →
      (SimpleMeme.process_events signature m1).Perm
        (SimpleMeme.process_events signature m2) := by
  intro signature m1 m2 h
  unfold SimpleMeme.process_events
  exact h.flatMap_right _

/-- A transfer under program `p`. -/
def c5T1 : SimpleTransferData :=
  { program_id := "p"
    from_addr := "x"
    to_addr := "y"
    amount := { mint := "m", amount := 3, decimals := 0 }
    idx := "0-0" }

/-- A transfer under program `q`. -/
def c5T2 : SimpleTransferData :=
  { program_id := "q"
    from_addr := "u"
    to_addr := "v"
    amount := { mint := "m", amount := 4, decimals := 0 }
    idx := "1-0" }

/-- Counterexample for C5: two iteration orders of the same transfer map
(the two lists are permutations of each other, i.e. equal as hash maps)
produce different meme-event sequences, so two runs of the pipeline are
not guaranteed byte-identical output — the emitted order follows the
hash map's unspecified iteration order. -/
theorem process_events_output_depends_on_iteration_order :
    ([("p", [c5T1]), ("q", [c5T2])].Perm [("q", [c5T2]), ("p", [c5T1])]) ∧
    ((SimpleMeme.process_events "s" [("p", [c5T1]), ("q", [c5T2])] ==
      SimpleMeme.process_events "s" [("q", [c5T2]), ("p", [c5T1])]) = false) := by
  exact ⟨by decide, by decide⟩

/-- Witness for C5 (amended) at the two concrete iteration orders. -/
theorem process_events_perm_invariant_witness :
    (SimpleMeme.process_events "s" [("p", [c5T1]), ("q", [c5T2])]).Perm
      (SimpleMeme.process_events "s" [("q", [c5T2]), ("p", [c5T1])]) :=
  process_events_perm_invariant_under_iteration_order "s"
    [("p", [c5T1]), ("q", [c5T2])] [("q", [c5T2]), ("p", [c5T1])] (by decide)
